import Mathlib

/-!
Shallow embedding of the tg-analytics repository (Python) for checking its
natural-language specification.

Modelled components, translated from the repository source:
* `src/database/models.py` — the stored-row shapes (SQLAlchemy tables),
* `src/data/collector.py`  — `TelegramDataCollector.get_posts`,
  `get_comments`, `_save_reactions` over an explicit session model,
* `src/analysis/llm_service.py` — the four `LLMAnalysisService` operations,
* `src/bot/bot.py` — the conversation handlers relevant to session context.

Modelling conventions:
* Python `dict`/JSON values are the inductive `Json`; object fields keep
  Python dict insertion order.
* `json.loads` / `json.dumps` are external-library functions and appear as
  oracle fields (`loads`, `dumps`) of the environment; `loads s = none`
  models `json.JSONDecodeError`.
* Exceptions are values of `PyExn`; a function that may raise returns
  `Except PyExn _`.
* `datetime` values are modelled as integers (`timedelta(days=n)` is `+ n`);
  `created_at` ordering is modelled by list insertion order (each row's
  `created_at` defaults to `utcnow()` at insert, so later rows are later).
* SQLAlchemy sessions are explicit: `db.add`/`db.merge` put *pending*
  objects (primary key still unassigned, `id = none` — the sessions are
  created with `autoflush=False`, and the collector never flushes before
  `commit`) into the session; `commit` assigns primary keys and appends the
  rows to the store.  The only UNIQUE constraint declared in
  `models.py` that the collector can hit is `users.tg_id` (posts, comments
  and reactions declare none); SQLite does not enforce foreign keys by
  default, so FK values are stored as given.
-/

/-- A JSON value / Python dict, as produced by `json.loads`.  Object fields
are an association list in Python dict insertion order. -/
inductive Json where
  | str (s : String)
  | int (n : Int)
  | bool (b : Bool)
  | null
  | arr (elems : List Json)
  | obj (fields : List (String × Json))

/-- Python exception values; the `String` argument is what `str(e)` shows. -/
inductive PyExn where
  | jsonDecode (msg : String)
  | provider (msg : String)
  | dbFailure (msg : String)
  | integrityError (msg : String)
  | keyError (msg : String)
  | valueError (msg : String)
  | typeError (msg : String)
  | attributeError (msg : String)
deriving Repr, DecidableEq

/-- `str(e)` for an exception, as embedded in `{"error": str(e)}`. -/
def PyExn.msg : PyExn → String
  | .jsonDecode m => m
  | .provider m => m
  | .dbFailure m => m
  | .integrityError m => m
  | .keyError m => m
  | .valueError m => m
  | .typeError m => m
  | .attributeError m => m

/-- Python `d[k]` on a parsed JSON value: `KeyError` on a missing key of an
object, `TypeError` when the value is not a dict.  Association-list lookup
takes the first binding, matching a Python dict (whose keys are unique). -/
def pyGetItem (v : Json) (k : String) : Except PyExn Json :=
  match v with
  | .obj fields =>
    match fields.lookup k with
    | some w => .ok w
    | none => .error (.keyError k)
  | _ => .error (.typeError "value is not subscriptable")

/-- Python `l[i]` on a list: raises `IndexError` (carried here by the
`valueError` constructor) when `i` is out of range. -/
def pyIndex (l : List String) (i : Nat) : Except PyExn String :=
  match l.get? i with
  | some x => .ok x
  | none => .error (.valueError "list index out of range")

/-- Python `str.isspace` characters that `int()` and `str.strip()` strip. -/
def pyIsSpace (c : Char) : Bool :=
  c == ' ' || c == '\t' || c == '\n' || c == '\r' || c == '\x0b' || c == '\x0c'

/-- Leading and trailing whitespace removed (Python `str.strip()`),
structurally on the character list so that it evaluates by reduction. -/
def pyStripChars (cs : List Char) : List Char :=
  ((cs.dropWhile pyIsSpace).reverse.dropWhile pyIsSpace).reverse

/-- Python `str.strip()`. -/
def pyStrip (s : String) : String := String.mk (pyStripChars s.toList)

/-- Python `str.split(sep)` for a one-character separator, structurally on
the character list: split at every occurrence, keeping empty pieces. -/
def splitChars (sep : Char) : List Char → List (List Char)
  | [] => [[]]
  | c :: rest =>
    if c == sep then [] :: splitChars sep rest
    else
      match splitChars sep rest with
      | [] => [[c]]
      | group :: groups => (c :: group) :: groups

/-- Python `s.split(sep)` with a one-character separator. -/
def pySplit (s : String) (sep : Char) : List String :=
  (splitChars sep s.toList).map (fun cs => String.mk cs)

/-- Digits of a natural-number literal. -/
def digitsVal : List Char → Option Nat
  | [] => none
  | cs => cs.foldl (fun acc c => match acc with
      | none => none
      | some n => if c.isDigit then some (n * 10 + (c.toNat - '0'.toNat)) else none)
      (some 0)

/-- Python `int(s)`: optional surrounding whitespace, optional sign, one or
more decimal digits; anything else raises `ValueError`.  (Underscore
separators and non-ASCII digits accepted by CPython are not modelled; no
input in this development uses them.) -/
def pyInt (s : String) : Except PyExn Int :=
  match pyStripChars s.toList with
  | '-' :: rest => match digitsVal rest with
    | some n => .ok (-(n : Int))
    | none => .error (.valueError ("invalid literal for int: " ++ s))
  | '+' :: rest => match digitsVal rest with
    | some n => .ok (n : Int)
    | none => .error (.valueError ("invalid literal for int: " ++ s))
  | cs => match digitsVal cs with
    | some n => .ok (n : Int)
    | none => .error (.valueError ("invalid literal for int: " ++ s))

/-! ## Stored rows (`src/database/models.py`)

Each structure is one SQLAlchemy table, restricted to the columns the
collector and orchestrator read or write.  `id` is the integer primary key
the database assigns at flush.  Timestamps are integers. -/

/-- `models.User` — `tg_id` carries `unique=True`. -/
structure UserRow where
  id : Int
  tg_id : Int
  username : Option String
  first_name : Option String
  last_name : Option String
deriving Repr, DecidableEq

/-- `models.Post` — note: no uniqueness constraint on `tg_id` or on
`(tg_id, channel_id)` is declared in `models.py`. -/
structure PostRow where
  id : Int
  tg_id : Int
  channel_id : Int
  content : String
  posted_at : Int
  views : Int
  forwards : Int
deriving Repr, DecidableEq

/-- `models.Comment` — `user_id` is nullable. -/
structure CommentRow where
  id : Int
  tg_id : Int
  post_id : Int
  user_id : Option Int
  content : String
  commented_at : Int
deriving Repr, DecidableEq

/-- `models.Reaction` — both foreign keys are nullable columns. -/
structure ReactionRow where
  id : Int
  post_id : Option Int
  comment_id : Option Int
  reaction_type : String
  count : Int
deriving Repr, DecidableEq

/-- `models.Analysis`; `created_at` ordering is the position in
`DB.analyses` (rows are appended at commit time with `utcnow()`). -/
structure AnalysisRow where
  id : Int
  channel_id : Option Int
  post_id : Option Int
  analysis_type : String
  content : String
deriving Repr, DecidableEq

/-- `models.ContentPlan`. -/
structure ContentPlanRow where
  id : Int
  channel_id : Int
  title : Json
  description : Json
  planned_date : Int
  content : String
  status : String

/-- `models.Survey`. -/
structure SurveyRow where
  id : Int
  channel_id : Int
  title : Json
  description : Json
  questions : String
  status : String

/-- The database: one list of stored rows per table, in insertion order. -/
structure DB where
  users : List UserRow
  posts : List PostRow
  comments : List CommentRow
  reactions : List ReactionRow
  analyses : List AnalysisRow
  contentPlans : List ContentPlanRow
  surveys : List SurveyRow

/-- The empty database (`Base.metadata.create_all` on a fresh file). -/
def DB.empty : DB := ⟨[], [], [], [], [], [], []⟩

/-! ## Collector inputs (Telethon message shapes, `src/data/collector.py`)

The external messaging API is an input to the embedded collector: the
message history / reply list a run would receive is passed as data. -/

/-- One entry of `MessageReactions.results`: `reaction.reaction` exposes
`emoticon` for a plain emoji, `document_id` for a custom emoji, and
otherwise only its `str(...)` form. -/
inductive TgReactionKind where
  | emoticon (s : String)
  | customDocument (document_id : Int)
  | other (shown : String)
deriving Repr, DecidableEq

/-- One reaction-count entry of a message's reaction summary. -/
structure TgReactionEntry where
  reaction : TgReactionKind
  count : Int
deriving Repr, DecidableEq

/-- A Telethon `Message`, restricted to the attributes the collector reads.
`message = ""` stands for an empty / media-only body (falsy in Python);
`reactions = none` for `Message.reactions is None`. -/
structure TgMessage where
  id : Int
  date : Int
  message : String
  views : Int
  forwards : Int
  reactions : Option (List TgReactionEntry)
  from_id : Option Int
deriving Repr, DecidableEq

/-- A Telethon `User` entity as returned by `client.get_entity`. -/
structure TgUser where
  id : Int
  username : Option String
  first_name : Option String
  last_name : Option String
deriving Repr, DecidableEq

/-- Outcome of `client.get_entity(reply.from_id)` in `get_comments`:
the call may raise, resolve to a non-`User` entity (the `isinstance`
test fails), or resolve to a user. -/
inductive ResolveResult where
  | raises (msg : String)
  | notUser
  | user (u : TgUser)
deriving Repr, DecidableEq

/-- A pending (added-but-not-flushed) `Post` object.  Its primary key `id`
is `none` until the session flushes: the collector's sessions are created
with `autoflush=False` and the collector reads `post.id` before any flush. -/
structure PendingPost where
  id : Option Int
  tg_id : Int
  channel_id : Int
  content : String
  posted_at : Int
  views : Int
  forwards : Int
deriving Repr, DecidableEq

/-- A pending `Comment` object (primary key unassigned until flush). -/
structure PendingComment where
  id : Option Int
  tg_id : Int
  post_id : Int
  user_id : Option Int
  content : String
  commented_at : Int
deriving Repr, DecidableEq

/-- A pending `Reaction` object; its foreign-key attributes hold whatever
values they were constructed with. -/
structure PendingReaction where
  post_id : Option Int
  comment_id : Option Int
  reaction_type : String
  count : Int
deriving Repr, DecidableEq

/-- A pending `User` object produced by `db.merge(UserModel(...))`: the
merged object is transient (its primary key is `None`), so SQLAlchemy
treats the merge as a pending INSERT, not an update. -/
structure PendingUser where
  tg_id : Int
  username : Option String
  first_name : Option String
  last_name : Option String
deriving Repr, DecidableEq

/-- One SQLAlchemy session (`with SessionLocal() as db`): the pending
objects accumulated by `db.add` / `db.merge`, per table, in call order. -/
structure Sess where
  pendingUsers : List PendingUser
  pendingPosts : List PendingPost
  pendingComments : List PendingComment
  pendingReactions : List PendingReaction
deriving Repr, DecidableEq

/-- A fresh session. -/
def Sess.empty : Sess := ⟨[], [], [], []⟩

/-- The three-tier label mapping of `_save_reactions`: `emoticon` when
present, else `custom_<document_id>`, else `str(reaction.reaction)`. -/
def reactionTypeOf : TgReactionKind → String
  | .emoticon s => s
  | .customDocument d => "custom_" ++ toString d
  | .other shown => shown

/-- Target of `_save_reactions`: the just-added pending `Post` or
`Comment` object (`isinstance(entity, Post)` distinguishes them). -/
inductive ReactionTarget where
  | post (p : PendingPost)
  | comment (c : PendingComment)

/-- `TelegramDataCollector._save_reactions`: for each entry of the
message's reaction summary, add a pending `Reaction` whose `post_id` is
`entity.id` when the target is a `Post` (else `None`) and whose
`comment_id` is `entity.id` when the target is a `Comment` (else `None`).
`entity.id` is the target's *current, unflushed* primary-key attribute. -/
def saveReactions (message : TgMessage) (entity : ReactionTarget) (sess : Sess) : Sess :=
  match message.reactions with
  | none => sess
  | some results =>
    results.foldl (fun s r =>
      { s with pendingReactions := s.pendingReactions ++
          [{ post_id := match entity with
               | .post p => p.id
               | .comment _ => none
             comment_id := match entity with
               | .post _ => none
               | .comment c => c.id
             reaction_type := reactionTypeOf r.reaction
             count := r.count }] }) sess

/-- Primary keys assigned at flush: row `i` of the batch gets
`base + 1 + i` where `base` is the number of rows already in the table. -/
def withIds (base : Int) (f : Int → α → β) : List α → List β
  | [] => []
  | x :: xs => f (base + 1) x :: withIds (base + 1) f xs

/-- Duplicate check used by `Sess.commit` for `users.tg_id`. -/
def hasDupTgId : List PendingUser → Bool
  | [] => false
  | u :: us => us.any (fun v => v.tg_id == u.tg_id) || hasDupTgId us

/-- `db.commit()` on a collector session: flush every pending object.
The INSERTs into `users` are subject to the `UNIQUE` constraint on
`users.tg_id` declared in `models.py`; a violation raises
`IntegrityError` and nothing from the session is persisted.  All other
collector tables declare no uniqueness constraints, and SQLite does not
enforce foreign keys by default, so those rows are stored as constructed
(pending reactions keep the foreign-key values they were built with). -/
def Sess.commit (sess : Sess) (db : DB) : Except PyExn DB :=
  if hasDupTgId sess.pendingUsers
      || sess.pendingUsers.any (fun u => db.users.any (fun v => v.tg_id == u.tg_id)) then
    .error (.integrityError "UNIQUE constraint failed: users.tg_id")
  else
    .ok { db with
      users := db.users ++ withIds (db.users.length : Int)
        (fun i u => { id := i, tg_id := u.tg_id, username := u.username,
                      first_name := u.first_name, last_name := u.last_name }) sess.pendingUsers
      posts := db.posts ++ withIds (db.posts.length : Int)
        (fun i p => { id := i, tg_id := p.tg_id, channel_id := p.channel_id,
                      content := p.content, posted_at := p.posted_at,
                      views := p.views, forwards := p.forwards }) sess.pendingPosts
      comments := db.comments ++ withIds (db.comments.length : Int)
        (fun i c => { id := i, tg_id := c.tg_id, post_id := c.post_id,
                      user_id := c.user_id, content := c.content,
                      commented_at := c.commented_at }) sess.pendingComments
      reactions := db.reactions ++ withIds (db.reactions.length : Int)
        (fun i r => { id := i, post_id := r.post_id, comment_id := r.comment_id,
                      reaction_type := r.reaction_type, count := r.count }) sess.pendingReactions }

/-- The dictionary `get_posts` appends to its returned list per message. -/
structure PostData where
  id : Int
  date : Int
  text : String
  views : Int
  forwards : Int
deriving Repr, DecidableEq

/-- Loop body of `TelegramDataCollector.get_posts` over `history.messages`:
skip empty-body messages; otherwise append the message dict to the result,
`db.add` a `Post` (primary key unassigned), and run `_save_reactions`
against that pending post. -/
def getPostsStep (entityId : Int) (acc : List PostData × Sess) (message : TgMessage) :
    List PostData × Sess :=
  if message.message = "" then acc
  else
    let post : PendingPost :=
      { id := none, tg_id := message.id, channel_id := entityId,
        content := message.message, posted_at := message.date,
        views := message.views, forwards := message.forwards }
    let sess := { acc.2 with pendingPosts := acc.2.pendingPosts ++ [post] }
    (acc.1 ++ [{ id := message.id, date := message.date, text := message.message,
                 views := message.views, forwards := message.forwards }],
     saveReactions message (.post post) sess)

/-- `TelegramDataCollector.get_posts`: iterate over the fetched history
inside one fresh session, then `db.commit()`.  `entityId` is the Telegram
id of the resolved channel entity; `history` is what `GetHistoryRequest`
returned.  The returned pair is (the list the method returns, the database
after the commit — or the propagated exception if the commit raises). -/
def getPosts (entityId : Int) (history : List TgMessage) (db : DB) :
    List PostData × Except PyExn DB :=
  let (posts, sess) := history.foldl (getPostsStep entityId) ([], Sess.empty)
  (posts, sess.commit db)

/-- The dictionary `get_comments` appends to its returned list per reply. -/
structure CommentData where
  id : Int
  post_id : Int
  date : Int
  text : String
  user : Option TgUser
deriving Repr, DecidableEq

/-- Author-resolution step of `get_comments`:
`user_info = None; if reply.from_id: try: ... except: log`.  A raised
lookup is logged and leaves `user_info = None`; a non-`User` entity leaves
it `None` too (no exception); a resolved `User` fills `user_info` and
`db.merge`s a transient `UserModel` (a pending INSERT). -/
def resolveStep (resolve : Int → ResolveResult) (reply : TgMessage) (sess : Sess) :
    Option TgUser × Sess :=
  match reply.from_id with
  | none => (none, sess)
  | some fromId =>
    match resolve fromId with
    | .raises _ => (none, sess)
    | .notUser => (none, sess)
    | .user u =>
      (some u,
       { sess with pendingUsers := sess.pendingUsers ++
           [{ tg_id := u.id, username := u.username,
              first_name := u.first_name, last_name := u.last_name }] })

/-- Loop of `get_comments` over the fetched replies: skip empty bodies;
resolve the author (best effort); append the reply dict; `db.add` a
`Comment` whose `user_id` is the resolved Telegram user id or `None`; run
`_save_reactions` against the pending comment. -/
def processReplies (postId : Int) (resolve : Int → ResolveResult) :
    List TgMessage → Sess → List CommentData × Sess
  | [], sess => ([], sess)
  | reply :: rest, sess =>
    if reply.message = "" then processReplies postId resolve rest sess
    else
      let (userInfo, sess1) := resolveStep resolve reply sess
      let comment : PendingComment :=
        { id := none, tg_id := reply.id, post_id := postId,
          user_id := userInfo.map (fun u => u.id),
          content := reply.message, commented_at := reply.date }
      let sess2 := saveReactions reply (.comment comment)
        { sess1 with pendingComments := sess1.pendingComments ++ [comment] }
      let (restData, sess3) := processReplies postId resolve rest sess2
      ({ id := reply.id, post_id := postId, date := reply.date,
         text := reply.message, user := userInfo } :: restData, sess3)

/-- `TelegramDataCollector.get_comments`: nothing happens unless a truthy
`post_id` was supplied and the post message resolves (`postFound`); then
the fetched replies are processed in one fresh session and committed.
`resolve` is the `client.get_entity` oracle for author lookups. -/
def getComments (postId : Option Int) (postFound : Bool) (replies : List TgMessage)
    (resolve : Int → ResolveResult) (db : DB) :
    List CommentData × Except PyExn DB :=
  match postId with
  | none => ([], .ok db)
  | some pid =>
    if pid == 0 then ([], .ok db)
    else if !postFound then ([], .ok db)
    else
      let (comments, sess) := processReplies pid resolve replies Sess.empty
      (comments, sess.commit db)

/-! ## Analysis orchestrator (`src/analysis/llm_service.py`)

`LLMAnalysisService` holds a session `self.db`; its four operations are
embedded as functions from the environment, the database and the arguments
to a result, the database after the call, and the trace of LLM
invocations. -/

/-- One `openai.ChatCompletion.acreate` invocation.  The temperature is a
literal (`0.3` / `0.5` / `0.7`) recorded in tenths to stay in exact
arithmetic. -/
structure LlmCall where
  model : String
  system : String
  user : String
  temperatureTenths : Nat
  maxTokens : Nat

/-- The environment of an orchestrator call: the external-library oracles
and the injected-fault switches.

* `loads` is `json.loads` (`none` = `JSONDecodeError`); `dumps` is
  `json.dumps(·, ensure_ascii=False)` and `dumpsIndent` is
  `json.dumps(·, ensure_ascii=False, indent=2)` as used in prompts.
* `llm` is the provider call; `.error` is an `openai` failure
  (auth / quota / transport).
* `dbError = some e` models a failed database session: the first
  `self.db.query(...)` of the call raises `e`.
* `commitError = some e` models `self.db.commit()` raising `e` (nothing
  from the session is persisted; the caller closes the session).
* `today` is `datetime.utcnow()` in days. -/
structure Env where
  loads : String → Option Json
  dumps : Json → String
  dumpsIndent : Json → String
  llm : LlmCall → Except PyExn String
  dbError : Option PyExn
  commitError : Option PyExn
  today : Int

/-- Result of an orchestrator operation: the returned value (`.error` when
an exception propagates out of the method), the database after the call,
and the LLM calls made, in order. -/
structure OpOut where
  res : Except PyExn Json
  db : DB
  calls : List LlmCall

/-- `self.db.query(Post).filter(Post.channel_id == channel_id)`. -/
def postsOfChannel (db : DB) (channelId : Int) : List PostRow :=
  db.posts.filter (fun p => p.channel_id == channelId)

/-- Insertion step for `ORDER BY posted_at DESC`. -/
def insertByDateDesc (p : PostRow) : List PostRow → List PostRow
  | [] => [p]
  | q :: qs => if q.posted_at ≤ p.posted_at then p :: q :: qs else q :: insertByDateDesc p qs

/-- `ORDER BY posted_at DESC` (ties are unspecified in SQL; this model
keeps earlier-inserted rows first among equal timestamps). -/
def sortByDateDesc (l : List PostRow) : List PostRow :=
  l.foldr insertByDateDesc []

/-- The gather query of `analyze_channel_content`: channel posts ordered
by publish time descending, limited to 50. -/
def recentPosts (db : DB) (channelId : Int) : List PostRow :=
  (sortByDateDesc (postsOfChannel db channelId)).take 50

/-- `self.db.query(Comment).filter(Comment.post_id == pid)`. -/
def commentsOfPost (db : DB) (pid : Int) : List CommentRow :=
  db.comments.filter (fun c => c.post_id == pid)

/-- `self.db.query(Reaction).filter(Reaction.post_id == pid)`; a stored
reaction whose `post_id` is NULL never matches (SQL `NULL == x`). -/
def reactionsOfPost (db : DB) (pid : Int) : List ReactionRow :=
  db.reactions.filter (fun r => r.post_id == some pid)

/-- The comment dict embedded in `analyze_channel_content`'s post data. -/
def commentJson (c : CommentRow) : Json :=
  .obj [("id", .int c.tg_id), ("content", .str c.content),
        ("user_id", match c.user_id with | some u => .int u | none => .null)]

/-- The reaction dict embedded in prompt data. -/
def reactionJson (r : ReactionRow) : Json :=
  .obj [("type", .str r.reaction_type), ("count", .int r.count)]

/-- One post's entry of `posts_data` in `analyze_channel_content`:
comments are capped to the first 10, reactions are not capped.
`isoformat()` on the integer-modelled timestamp is its decimal string. -/
def postJson (db : DB) (p : PostRow) : Json :=
  .obj [("id", .int p.tg_id), ("content", .str p.content),
        ("posted_at", .str (toString p.posted_at)),
        ("views", .int p.views), ("forwards", .int p.forwards),
        ("comments_count", .int ((commentsOfPost db p.id).length : Int)),
        ("comments", .arr (((commentsOfPost db p.id).take 10).map commentJson)),
        ("reactions", .arr ((reactionsOfPost db p.id).map reactionJson))]

/-- `posts_data` of `analyze_channel_content`. -/
def channelPostsData (db : DB) (channelId : Int) : Json :=
  .arr ((recentPosts db channelId).map (postJson db))

/-- "Latest channel-content analysis": filter on `channel_id` and
`analysis_type`, `ORDER BY created_at DESC`, `first()`.  With insertion
order standing for creation time this is the last matching row. -/
def latestChannelAnalysis (db : DB) (channelId : Int) : Option AnalysisRow :=
  (db.analyses.filter (fun a =>
    a.channel_id == some channelId && a.analysis_type == "channel_content")).getLast?

/-- Joins prompt lines with newlines. -/
def plines (l : List String) : String := String.intercalate "\n" l

/-- Text of the channel-analysis prompt before the embedded post data. -/
def analyzePromptPre : String :=
  plines ["", "        Проанализируй следующие данные из Telegram-канала:", "        ", "        "]

/-- Text of the channel-analysis prompt after the embedded post data. -/
def analyzePromptPost : String :=
  plines ["", "        ",
    "        Выполни следующие задачи:",
    "        1. Определи основные темы и категории контента",
    "        2. Выяви посты с наибольшим вовлечением (по просмотрам, комментариям и реакциям)",
    "        3. Проанализируй тональность комментариев и общее настроение аудитории",
    "        4. Выяви ключевые запросы и вопросы подписчиков",
    "        5. Предложи 5 идей для новых постов на основе анализа",
    "        6. Определи оптимальное время публикации контента",
    "        7. Выдели сильные и слабые стороны существующего контента",
    "        ",
    "        Результат представь в формате JSON со следующими ключами:",
    "        - main_topics",
    "        - top_posts",
    "        - audience_sentiment",
    "        - audience_questions",
    "        - content_ideas",
    "        - optimal_posting_time",
    "        - content_strengths",
    "        - content_weaknesses",
    "        "]

/-- System message of `analyze_channel_content`. -/
def analyzeSystem : String :=
  "Ты аналитик социальных медиа, который анализирует Telegram-каналы и предоставляет инсайты и рекомендации."

/-- The LLM request of `analyze_channel_content` (temperature 0.3,
`max_tokens=2000`). -/
def analyzeCall (env : Env) (db : DB) (channelId : Int) : LlmCall :=
  { model := "gpt-4o", system := analyzeSystem,
    user := analyzePromptPre ++ env.dumpsIndent (channelPostsData db channelId) ++ analyzePromptPost,
    temperatureTenths := 3, maxTokens := 2000 }

/-- `LLMAnalysisService.analyze_channel_content(channel_id)`.

Shape of the source: the posts query and prompt construction run *before*
the `try:`; the `try:` covers the provider call, the parse-or-wrap of the
response, `db.add` and `db.commit`, with `except Exception` turning any of
their failures into `{"error": str(e)}`. -/
def analyze_channel_content (env : Env) (db : DB) (channelId : Int) : OpOut :=
  match env.dbError with
  | some e => ⟨.error e, db, []⟩
  | none =>
    if (recentPosts db channelId).isEmpty then
      ⟨.ok (.obj [("error", .str "No posts found for analysis")]), db, []⟩
    else
      match env.llm (analyzeCall env db channelId) with
      | .error e => ⟨.ok (.obj [("error", .str e.msg)]), db, [analyzeCall env db channelId]⟩
      | .ok result =>
        let analysisData : Json :=
          match env.loads result with
          | some j => j
          | none => .obj [("analysis", .str result)]
        match env.commitError with
        | some e => ⟨.ok (.obj [("error", .str e.msg)]), db, [analyzeCall env db channelId]⟩
        | none =>
          ⟨.ok analysisData,
           { db with analyses := db.analyses ++
               [{ id := (db.analyses.length : Int) + 1, channel_id := some channelId,
                  post_id := none, analysis_type := "channel_content",
                  content := env.dumps analysisData }] },
           [analyzeCall env db channelId]⟩

/-- Text of the content-plan prompt before the embedded analysis. -/
def planPromptPre : String :=
  plines ["", "        На основе следующего анализа Telegram-канала:", "        ", "        "]

/-- Text of the content-plan prompt after the embedded analysis; `days` is
interpolated by `str(days)`. -/
def planPromptPost (days : Int) : String :=
  plines ["", "        ",
    "        Создай контент-план на " ++ toString days ++ " дней. Для каждого дня предложи:",
    "        1. Тему поста",
    "        2. Краткое описание содержания",
    "        3. Тип контента (информационный, развлекательный, опрос, обучающий, интерактивный и т.д.)",
    "        4. Оптимальное время публикации",
    "        5. Ожидаемый отклик аудитории",
    "        ",
    "        Результат представь в формате JSON, где ключи - дни (day_1, day_2, ...), а значения - объекты с полями:",
    "        - title",
    "        - description",
    "        - content_type",
    "        - posting_time",
    "        - expected_engagement",
    "        "]

/-- System message of `generate_content_plan`. -/
def planSystem : String :=
  "Ты контент-менеджер для Telegram-канала, который создает эффективные контент-планы на основе аналитики."

/-- The LLM request of `generate_content_plan` (temperature 0.7,
`max_tokens=2500`). -/
def planCall (env : Env) (days : Int) (analysisData : Json) : LlmCall :=
  { model := "gpt-4o", system := planSystem,
    user := planPromptPre ++ env.dumpsIndent analysisData ++ planPromptPost days,
    temperatureTenths := 7, maxTokens := 2500 }

/-- A `ContentPlan` object before the session assigns its primary key. -/
structure PendingContentPlan where
  channel_id : Int
  title : Json
  description : Json
  planned_date : Int
  content : String
  status : String

/-- A stored `ContentPlan` row from a pending one, under an assigned
primary key. -/
def storedPlanRow (i : Int) (r : PendingContentPlan) : ContentPlanRow :=
  { id := i, channel_id := r.channel_id, title := r.title, description := r.description,
    planned_date := r.planned_date, content := r.content, status := r.status }

/-- The `for day_key, day_plan in plan_data.items():` loop body of
`generate_content_plan`, one `ContentPlan(...)` per entry:
`day_num = int(day_key.split("_")[1])` (IndexError / ValueError on a
malformed key), `planned_date = today + timedelta(days=day_num - 1)`,
`title` and `description` are subscript lookups (KeyError / TypeError),
status is `"draft"`.  Any of these exceptions is raised inside the
enclosing `try:` of the operation. -/
def planRowsOf (env : Env) (channelId : Int) :
    List (String × Json) → Except PyExn (List PendingContentPlan)
  | [] => .ok []
  | (dayKey, dayPlan) :: rest => do
    let s ← pyIndex (pySplit dayKey '_') 1
    let dayNum ← pyInt s
    let title ← pyGetItem dayPlan "title"
    let description ← pyGetItem dayPlan "description"
    let restRows ← planRowsOf env channelId rest
    .ok ({ channel_id := channelId, title := title, description := description,
           planned_date := env.today + (dayNum - 1),
           content := env.dumps dayPlan, status := "draft" } :: restRows)

/-- `plan_data.items()`: iterating a non-dict raises `AttributeError`. -/
def planItems : Json → Except PyExn (List (String × Json))
  | .obj fields => .ok fields
  | _ => .error (.attributeError "object has no attribute items")

/-- The part of `generate_content_plan` from the `try:` on, given the
analysis payload obtained by the gather phase and the LLM calls already
made by an inline channel analysis. -/
def planTryPhase (env : Env) (db : DB) (channelId : Int) (days : Int)
    (analysisData : Json) (calls0 : List LlmCall) : OpOut :=
  match env.llm (planCall env days analysisData) with
  | .error e => ⟨.ok (.obj [("error", .str e.msg)]), db, calls0 ++ [planCall env days analysisData]⟩
  | .ok result =>
    match env.loads result with
    | none =>
      ⟨.ok (.obj [("error", .str "Failed to parse response as JSON"),
                  ("raw_response", .str result)]), db, calls0 ++ [planCall env days analysisData]⟩
    | some planData =>
      match planItems planData >>= planRowsOf env channelId with
      | .error e => ⟨.ok (.obj [("error", .str e.msg)]), db, calls0 ++ [planCall env days analysisData]⟩
      | .ok rows =>
        match env.commitError with
        | some e => ⟨.ok (.obj [("error", .str e.msg)]), db, calls0 ++ [planCall env days analysisData]⟩
        | none =>
          ⟨.ok (.obj [("success", .bool true), ("content_plan", planData)]),
           { db with contentPlans := db.contentPlans ++
               withIds (db.contentPlans.length : Int) storedPlanRow rows },
           calls0 ++ [planCall env days analysisData]⟩

/-- `LLMAnalysisService.generate_content_plan(channel_id, days=7)`.

Shape of the source: the latest-analysis lookup, the inline
`analyze_channel_content` chaining (when no prior analysis exists) and the
`json.loads(analysis.content)` of a reused analysis all run *before* the
`try:`; the `try:` covers the provider call, the parse (returning
`{"error", "raw_response"}` on `JSONDecodeError`), the per-day
`ContentPlan` construction and the single `db.commit()`. -/
def generate_content_plan (env : Env) (db : DB) (channelId : Int) (days : Int) : OpOut :=
  match env.dbError with
  | some e => ⟨.error e, db, []⟩
  | none =>
    match latestChannelAnalysis db channelId with
    | none =>
      let inline := analyze_channel_content env db channelId
      match inline.res with
      | .error e => ⟨.error e, inline.db, inline.calls⟩
      | .ok analysisData => planTryPhase env inline.db channelId days analysisData inline.calls
    | some row =>
      match env.loads row.content with
      | none => ⟨.error (.jsonDecode "Expecting value"), db, []⟩
      | some analysisData => planTryPhase env db channelId days analysisData []

/-- The comment dict of `analyze_post_performance`'s post data: unlike the
channel analysis it uses the database primary key `comment.id`, includes
`commented_at`, and is not capped. -/
def perfCommentJson (c : CommentRow) : Json :=
  .obj [("id", .int c.id), ("content", .str c.content),
        ("user_id", match c.user_id with | some u => .int u | none => .null),
        ("commented_at", .str (toString c.commented_at))]

/-- `post_data` of `analyze_post_performance`. -/
def perfPostData (db : DB) (post : PostRow) (postId : Int) : Json :=
  .obj [("id", .int post.tg_id), ("content", .str post.content),
        ("posted_at", .str (toString post.posted_at)),
        ("views", .int post.views), ("forwards", .int post.forwards),
        ("comments", .arr ((commentsOfPost db postId).map perfCommentJson)),
        ("reactions", .arr ((reactionsOfPost db postId).map reactionJson))]

/-- Text of the post-performance prompt before the embedded post data. -/
def perfPromptPre : String :=
  plines ["", "        Проанализируй эффективность этого поста из Telegram-канала:", "        ", "        "]

/-- Text of the post-performance prompt after the embedded post data. -/
def perfPromptPost : String :=
  plines ["", "        ",
    "        Выполни следующие задачи:",
    "        1. Оцени вовлечение аудитории (высокое, среднее, низкое) с обоснованием",
    "        2. Проанализируй тональность комментариев (позитивная, нейтральная, негативная)",
    "        3. Выяви ключевые вопросы или запросы в комментариях",
    "        4. Предложи, как можно улучшить пост или его подачу",
    "        5. Определи, что в посте сработало хорошо, а что нет",
    "        ",
    "        Результат представь в формате JSON со следующими ключами:",
    "        - engagement_level",
    "        - engagement_analysis",
    "        - comments_sentiment",
    "        - key_questions",
    "        - improvement_suggestions",
    "        - pros_and_cons",
    "        "]

/-- System message of `analyze_post_performance`. -/
def perfSystem : String :=
  "Ты аналитик социальных медиа, который оценивает эффективность постов в Telegram."

/-- The LLM request of `analyze_post_performance` (temperature 0.3,
`max_tokens=1500`). -/
def perfCall (env : Env) (db : DB) (post : PostRow) (postId : Int) : LlmCall :=
  { model := "gpt-4o", system := perfSystem,
    user := perfPromptPre ++ env.dumpsIndent (perfPostData db post postId) ++ perfPromptPost,
    temperatureTenths := 3, maxTokens := 1500 }

/-- `LLMAnalysisService.analyze_post_performance(post_id)`.

The post / comments / reactions queries and the prompt run before the
`try:`; the `try:` covers the provider call, the parse (explicit
`{"error", "raw_response"}` on failure, nothing persisted) and the
`Analysis(post_id=..., analysis_type="post_performance")` persist. -/
def analyze_post_performance (env : Env) (db : DB) (postId : Int) : OpOut :=
  match env.dbError with
  | some e => ⟨.error e, db, []⟩
  | none =>
    match (db.posts.filter (fun p => p.id == postId)).head? with
    | none => ⟨.ok (.obj [("error", .str "Post not found")]), db, []⟩
    | some post =>
      match env.llm (perfCall env db post postId) with
      | .error e => ⟨.ok (.obj [("error", .str e.msg)]), db, [perfCall env db post postId]⟩
      | .ok result =>
        match env.loads result with
        | none =>
          ⟨.ok (.obj [("error", .str "Failed to parse response as JSON"),
                      ("raw_response", .str result)]), db, [perfCall env db post postId]⟩
        | some analysisData =>
          match env.commitError with
          | some e => ⟨.ok (.obj [("error", .str e.msg)]), db, [perfCall env db post postId]⟩
          | none =>
            ⟨.ok analysisData,
             { db with analyses := db.analyses ++
                 [{ id := (db.analyses.length : Int) + 1, channel_id := none,
                    post_id := some postId, analysis_type := "post_performance",
                    content := env.dumps analysisData }] },
             [perfCall env db post postId]⟩

/-- Text of the survey prompt before the embedded analysis. -/
def surveyPromptPre : String :=
  plines ["", "        На основе следующего анализа Telegram-канала:", "        ", "        "]

/-- Text of the survey prompt after the embedded analysis. -/
def surveyPromptPost : String :=
  plines ["", "        ",
    "        Создай опрос для аудитории, который поможет лучше понять их потребности и улучшить контент.",
    "        ",
    "        Опрос должен содержать:",
    "        1. Краткое вступление с объяснением цели опроса",
    "        2. 5-7 вопросов разных типов (выбор одного варианта, множественный выбор, открытый вопрос и т.д.)",
    "        3. Благодарность за участие",
    "        ",
    "        Вопросы должны касаться:",
    "        - Предпочтений по темам контента",
    "        - Удовлетворенности текущим контентом",
    "        - Пожеланий по новым форматам",
    "        - Демографических данных аудитории (возраст, интересы и т.д.)",
    "        - Частоты взаимодействия с каналом",
    "        ",
    "        Результат представь в формате JSON со следующими ключами:",
    "        - title",
    "        - description",
    "        - questions (массив объектов с полями: question_text, question_type, options)",
    "        - thank_you_message",
    "        "]

/-- System message of `generate_survey`. -/
def surveySystem : String :=
  "Ты специалист по маркетинговым исследованиям, который создает эффективные опросы для аудитории Telegram-канала."

/-- The LLM request of `generate_survey` (temperature 0.5,
`max_tokens=2000`). -/
def surveyCall (env : Env) (analysisData : Json) : LlmCall :=
  { model := "gpt-4o", system := surveySystem,
    user := surveyPromptPre ++ env.dumpsIndent analysisData ++ surveyPromptPost,
    temperatureTenths := 5, maxTokens := 2000 }

/-- The part of `generate_survey` from the `try:` on. The `Survey(...)`
keyword arguments evaluate `survey_data["title"]`,
`survey_data["description"]` and `json.dumps(survey_data["questions"])` in
order (a KeyError lands in the enclosing `except Exception`). -/
def surveyTryPhase (env : Env) (db : DB) (channelId : Int)
    (analysisData : Json) (calls0 : List LlmCall) : OpOut :=
  match env.llm (surveyCall env analysisData) with
  | .error e => ⟨.ok (.obj [("error", .str e.msg)]), db, calls0 ++ [surveyCall env analysisData]⟩
  | .ok result =>
    match env.loads result with
    | none =>
      ⟨.ok (.obj [("error", .str "Failed to parse response as JSON"),
                  ("raw_response", .str result)]), db, calls0 ++ [surveyCall env analysisData]⟩
    | some surveyData =>
      match (do
          let title ← pyGetItem surveyData "title"
          let description ← pyGetItem surveyData "description"
          let questions ← pyGetItem surveyData "questions"
          .ok (title, description, questions) :
          Except PyExn (Json × Json × Json)) with
      | .error e => ⟨.ok (.obj [("error", .str e.msg)]), db, calls0 ++ [surveyCall env analysisData]⟩
      | .ok (title, description, questions) =>
        match env.commitError with
        | some e => ⟨.ok (.obj [("error", .str e.msg)]), db, calls0 ++ [surveyCall env analysisData]⟩
        | none =>
          ⟨.ok (.obj [("success", .bool true), ("survey", surveyData)]),
           { db with surveys := db.surveys ++
               [{ id := (db.surveys.length : Int) + 1, channel_id := channelId,
                  title := title, description := description,
                  questions := env.dumps questions, status := "draft" }] },
           calls0 ++ [surveyCall env analysisData]⟩

/-- `LLMAnalysisService.generate_survey(channel_id)`: same gather phase as
`generate_content_plan` (reuse the latest channel-content analysis, else
run `analyze_channel_content` inline), then the `try:` phase. -/
def generate_survey (env : Env) (db : DB) (channelId : Int) : OpOut :=
  match env.dbError with
  | some e => ⟨.error e, db, []⟩
  | none =>
    match latestChannelAnalysis db channelId with
    | none =>
      let inline := analyze_channel_content env db channelId
      match inline.res with
      | .error e => ⟨.error e, inline.db, inline.calls⟩
      | .ok analysisData => surveyTryPhase env inline.db channelId analysisData inline.calls
    | some row =>
      match env.loads row.content with
      | none => ⟨.error (.jsonDecode "Expecting value"), db, []⟩
      | some analysisData => surveyTryPhase env db channelId analysisData []

/-! ## Conversation controller (`src/bot/bot.py`)

The `ConversationHandler` states and the handlers that read or write the
per-session `context.user_data`.  `user_data` is a per-user dictionary that
python-telegram-bot keeps for the lifetime of the application — returning
`ConversationHandler.END` ends the conversation but does not touch it. -/

/-- The `range(6)` state constants plus `ConversationHandler.END`. -/
inductive ConvState where
  | menu
  | analyzeChannelState
  | generateContentPlanState
  | analyzePostState
  | createSurveyState
  | waitingForConfirmation
  | conversationEnd
deriving Repr, DecidableEq

/-- The keys of `context.user_data` the handlers use. -/
structure UserData where
  channel_username : Option String
  post_id : Option Int
  pending_action : Option String
deriving Repr, DecidableEq

/-- A fresh session's `user_data` (an empty dict). -/
def UserData.empty : UserData := ⟨none, none, none⟩

/-- `if channel_username.startswith(chr 64): channel_username = channel_username[1:]`
from the three channel-input handlers. -/
def stripLeadingAt (s : String) : String :=
  match s.toList with
  | '@' :: rest => String.mk rest
  | _ => s

/-- `TelegramBot.process_channel_analysis`: strip the input, drop a
leading `@`, record the channel and the pending action, move to
confirmation. -/
def process_channel_analysis (text : String) (ud : UserData) : ConvState × UserData :=
  let channelUsername := pyStrip text
  let channelUsername := stripLeadingAt channelUsername
  let ud := { ud with channel_username := some channelUsername }
  let ud := { ud with pending_action := some "analyze_channel" }
  (.waitingForConfirmation, ud)

/-- `TelegramBot.process_content_plan` (same shape, different pending
action). -/
def process_content_plan (text : String) (ud : UserData) : ConvState × UserData :=
  let channelUsername := pyStrip text
  let channelUsername := stripLeadingAt channelUsername
  let ud := { ud with channel_username := some channelUsername }
  let ud := { ud with pending_action := some "generate_content_plan" }
  (.waitingForConfirmation, ud)

/-- `TelegramBot.process_post_analysis`: `int(text.strip())`; on
`ValueError` re-prompt and stay in the post-await state with `user_data`
untouched. -/
def process_post_analysis (text : String) (ud : UserData) : ConvState × UserData :=
  match pyInt (pyStrip text) with
  | .error _ => (.analyzePostState, ud)
  | .ok postId =>
    let ud := { ud with post_id := some postId }
    let ud := { ud with pending_action := some "analyze_post" }
    (.waitingForConfirmation, ud)

/-- `TelegramBot.process_survey_creation`. -/
def process_survey_creation (text : String) (ud : UserData) : ConvState × UserData :=
  let channelUsername := pyStrip text
  let channelUsername := stripLeadingAt channelUsername
  let ud := { ud with channel_username := some channelUsername }
  let ud := { ud with pending_action := some "create_survey" }
  (.waitingForConfirmation, ud)

/-- `TelegramBot.confirm_action` (the `^Да$` reply): dispatch on
`user_data.get("pending_action")`, run the matching `_perform_*` operation
(abstracted by the `perform` oracle, which never touches `user_data` —
the `_perform_*` helpers only read it), report, and return `END`.  The
handler never writes or clears `user_data`. -/
def confirm_action (perform : String → Json) (ud : UserData) :
    ConvState × UserData × Option String :=
  match ud.pending_action with
  | none => (.conversationEnd, ud, none)
  | some action =>
    let _result := perform action
    (.conversationEnd, ud, some action)

/-- `TelegramBot.cancel_action` (the `^Нет$` reply): reply and return
`END`; `user_data` untouched, no operation invoked. -/
def cancel_action (ud : UserData) : ConvState × UserData :=
  (.conversationEnd, ud)

/-- `TelegramBot.cancel` (the global `/cancel` fallback): reply and return
`END`; `user_data` untouched. -/
def cancel (ud : UserData) : ConvState × UserData :=
  (.conversationEnd, ud)

/-! ## Helper lemmas -/

theorem insertByDateDesc_ne_nil (p : PostRow) (l : List PostRow) :
    insertByDateDesc p l ≠ [] := by
  cases l with
  | nil => simp [insertByDateDesc]
  | cons q qs =>
    simp only [insertByDateDesc]
    split <;> simp

theorem sortByDateDesc_eq_nil_iff (l : List PostRow) :
    sortByDateDesc l = [] ↔ l = [] := by
  cases l with
  | nil => simp [sortByDateDesc]
  | cons p ps =>
    simp only [sortByDateDesc, List.foldr_cons]
    constructor
    · intro h
      exact absurd h (insertByDateDesc_ne_nil p _)
    · intro h
      exact absurd h (by simp)

theorem recentPosts_eq_nil_iff (db : DB) (ch : Int) :
    recentPosts db ch = [] ↔ postsOfChannel db ch = [] := by
  unfold recentPosts
  rw [List.take_eq_nil_iff]
  simp [sortByDateDesc_eq_nil_iff]

/-- `saveReactions` only appends pending reactions. -/
theorem saveReactions_pendingPosts (m : TgMessage) (t : ReactionTarget) (s : Sess) :
    (saveReactions m t s).pendingPosts = s.pendingPosts := by
  unfold saveReactions
  cases m.reactions with
  | none => rfl
  | some results =>
    induction results generalizing s with
    | nil => rfl
    | cons r rs ih => simpa using ih _

theorem saveReactions_pendingComments (m : TgMessage) (t : ReactionTarget) (s : Sess) :
    (saveReactions m t s).pendingComments = s.pendingComments := by
  unfold saveReactions
  cases m.reactions with
  | none => rfl
  | some results =>
    induction results generalizing s with
    | nil => rfl
    | cons r rs ih => simpa using ih _

theorem saveReactions_pendingUsers (m : TgMessage) (t : ReactionTarget) (s : Sess) :
    (saveReactions m t s).pendingUsers = s.pendingUsers := by
  unfold saveReactions
  cases m.reactions with
  | none => rfl
  | some results =>
    induction results generalizing s with
    | nil => rfl
    | cons r rs ih => simpa using ih _

/-- Membership in an id-assigned batch: every pending object lands in the
stored batch under some assigned primary key. -/
theorem withIds_mem {α β : Type} (f : Int → α → β) {x : α} :
    ∀ (base : Int) (l : List α), x ∈ l → ∃ i, f i x ∈ withIds base f l := by
  intro base l
  induction l generalizing base with
  | nil => intro h; cases h
  | cons y ys ih =>
    intro h
    rcases List.mem_cons.mp h with h | h
    · subst h
      exact ⟨base + 1, List.mem_cons_self _ _⟩
    · rcases ih (base + 1) h with ⟨i, hi⟩
      exact ⟨i, List.mem_cons_of_mem _ hi⟩

/-- Counting in an id-assigned batch, for predicates that ignore the
assigned id. -/
theorem withIds_countP {α β : Type} (f : Int → α → β) (p : β → Bool) (q : α → Bool)
    (hpq : ∀ i x, p (f i x) = q x) :
    ∀ (base : Int) (l : List α), (withIds base f l).countP p = l.countP q := by
  intro base l
  induction l generalizing base with
  | nil => rfl
  | cons y ys ih =>
    simp only [withIds, List.countP_cons, ih (base + 1), hpq]

/-- The pending `Post` object `get_posts` adds for a non-empty message. -/
def pendingPostOf (entityId : Int) (m : TgMessage) : PendingPost :=
  { id := none, tg_id := m.id, channel_id := entityId, content := m.message,
    posted_at := m.date, views := m.views, forwards := m.forwards }

theorem getPostsStep_pendingPosts (entityId : Int) (acc : List PostData × Sess) (m : TgMessage) :
    ((getPostsStep entityId acc m).2).pendingPosts =
      if m.message = "" then acc.2.pendingPosts
      else acc.2.pendingPosts ++ [pendingPostOf entityId m] := by
  unfold getPostsStep
  split
  · simp_all
  · simp_all [saveReactions_pendingPosts, pendingPostOf]

/-- The posts pending after the `get_posts` loop: one per non-empty
message of the history, in order. -/
theorem getPosts_fold_pendingPosts (entityId : Int) (history : List TgMessage) :
    ∀ acc : List PostData × Sess,
      ((history.foldl (getPostsStep entityId) acc).2).pendingPosts =
        acc.2.pendingPosts ++
          (history.filter (fun m => !(m.message == ""))).map (pendingPostOf entityId) := by
  induction history with
  | nil => intro acc; simp
  | cons m rest ih =>
    intro acc
    simp only [List.foldl_cons, List.filter_cons]
    rw [ih]
    rw [getPostsStep_pendingPosts]
    by_cases hm : m.message = ""
    · simp [hm]
    · simp only [hm, if_false]
      have : (m.message == "") = false := by simpa using hm
      simp [this]

/-- `get_posts` adds no pending users, so its commit cannot hit the
`users.tg_id` constraint. -/
theorem getPostsStep_pendingUsers (entityId : Int) (acc : List PostData × Sess) (m : TgMessage) :
    ((getPostsStep entityId acc m).2).pendingUsers = acc.2.pendingUsers := by
  unfold getPostsStep
  split
  · rfl
  · simp [saveReactions_pendingUsers]

theorem getPosts_fold_pendingUsers (entityId : Int) (history : List TgMessage) :
    ∀ acc : List PostData × Sess,
      ((history.foldl (getPostsStep entityId) acc).2).pendingUsers = acc.2.pendingUsers := by
  induction history with
  | nil => intro acc; rfl
  | cons m rest ih =>
    intro acc
    simp only [List.foldl_cons]
    rw [ih, getPostsStep_pendingUsers]

/-- A `get_posts` commit always succeeds and appends exactly one stored
`Post` row per non-empty message, with the message's external id and the
channel's Telegram id as the merge-free insert values. -/
theorem getPosts_posts (entityId : Int) (history : List TgMessage) (db : DB) :
    ∃ db', (getPosts entityId history db).2 = .ok db' ∧
      db'.posts = db.posts ++
        withIds (db.posts.length : Int)
          (fun i p => PostRow.mk i p.tg_id p.channel_id p.content p.posted_at p.views p.forwards)
          ((history.filter (fun m => !(m.message == ""))).map (pendingPostOf entityId)) := by
  unfold getPosts
  have husers := getPosts_fold_pendingUsers entityId history ([], Sess.empty)
  have hposts := getPosts_fold_pendingPosts entityId history ([], Sess.empty)
  rcases hfold : List.foldl (getPostsStep entityId) ([], Sess.empty) history with ⟨posts, sess⟩
  rw [hfold] at husers hposts
  simp only [Sess.empty] at husers hposts
  unfold Sess.commit
  simp only [husers, hasDupTgId, List.any_nil, Bool.or_false, Bool.false_eq_true, if_false]
  refine ⟨_, rfl, ?_⟩
  rw [hposts]
  simp

/-- The stateless part of author resolution: `user_info` for a reply. -/
def resolveUser (resolve : Int → ResolveResult) (reply : TgMessage) : Option TgUser :=
  match reply.from_id with
  | none => none
  | some fromId =>
    match resolve fromId with
    | .raises _ => none
    | .notUser => none
    | .user u => some u

theorem resolveStep_fst (resolve : Int → ResolveResult) (reply : TgMessage) (sess : Sess) :
    (resolveStep resolve reply sess).1 = resolveUser resolve reply := by
  unfold resolveStep resolveUser
  cases hf : reply.from_id with
  | none => rfl
  | some fromId => cases hr : resolve fromId <;> simp [hr]

theorem resolveStep_pendingComments (resolve : Int → ResolveResult) (reply : TgMessage) (sess : Sess) :
    (resolveStep resolve reply sess).2.pendingComments = sess.pendingComments := by
  unfold resolveStep
  cases hf : reply.from_id with
  | none => rfl
  | some fromId => cases hr : resolve fromId <;> simp [hr]

/-- The pending `User` a reply contributes (when its author resolves). -/
def pendingUserOf (resolve : Int → ResolveResult) (reply : TgMessage) : Option PendingUser :=
  (resolveUser resolve reply).map (fun u =>
    { tg_id := u.id, username := u.username,
      first_name := u.first_name, last_name := u.last_name })

theorem resolveStep_pendingUsers (resolve : Int → ResolveResult) (reply : TgMessage) (sess : Sess) :
    (resolveStep resolve reply sess).2.pendingUsers =
      sess.pendingUsers ++ (pendingUserOf resolve reply).toList := by
  unfold resolveStep pendingUserOf resolveUser
  cases hf : reply.from_id with
  | none => simp
  | some fromId => cases hr : resolve fromId <;> simp [hr]

/-- The pending `Comment` object `get_comments` adds for a non-empty
reply. -/
def pendingCommentOf (postId : Int) (resolve : Int → ResolveResult) (reply : TgMessage) :
    PendingComment :=
  { id := none, tg_id := reply.id, post_id := postId,
    user_id := (resolveUser resolve reply).map (fun u => u.id),
    content := reply.message, commented_at := reply.date }

/-- The reply loop never aborts: it returns one dict per non-empty reply,
whatever the author resolutions did. -/
theorem processReplies_length (postId : Int) (resolve : Int → ResolveResult)
    (replies : List TgMessage) :
    ∀ sess : Sess,
      (processReplies postId resolve replies sess).1.length =
        (replies.filter (fun r => !(r.message == ""))).length := by
  induction replies with
  | nil => intro sess; rfl
  | cons r rest ih =>
    intro sess
    by_cases hr : r.message = ""
    · simp [processReplies, hr, ih]
    · have hb : (r.message == "") = false := by simpa using hr
      simp only [processReplies, hr, if_false, List.filter_cons, hb]
      rcases hstep : resolveStep resolve r sess with ⟨userInfo, sess1⟩
      simp [ih, hb]

theorem processReplies_pendingComments (postId : Int) (resolve : Int → ResolveResult)
    (replies : List TgMessage) :
    ∀ sess : Sess,
      (processReplies postId resolve replies sess).2.pendingComments =
        sess.pendingComments ++
          (replies.filter (fun r => !(r.message == ""))).map
            (pendingCommentOf postId resolve) := by
  induction replies with
  | nil => intro sess; simp [processReplies]
  | cons r rest ih =>
    intro sess
    by_cases hr : r.message = ""
    · simp [processReplies, hr, ih, List.filter_cons, hr]
    · have hb : (r.message == "") = false := by simpa using hr
      simp only [processReplies, hr, if_false, List.filter_cons, hb]
      rcases hstep : resolveStep resolve r sess with ⟨userInfo, sess1⟩
      simp only [ih, saveReactions_pendingComments]
      have h1 : sess1.pendingComments = sess.pendingComments := by
        have := resolveStep_pendingComments resolve r sess
        rw [hstep] at this
        exact this
      have hu : userInfo = resolveUser resolve r := by
        have := resolveStep_fst resolve r sess
        rw [hstep] at this
        exact this
      simp [h1, hu, pendingCommentOf]

theorem processReplies_pendingUsers (postId : Int) (resolve : Int → ResolveResult)
    (replies : List TgMessage) :
    ∀ sess : Sess,
      (processReplies postId resolve replies sess).2.pendingUsers =
        sess.pendingUsers ++
          (replies.filter (fun r => !(r.message == ""))).flatMap
            (fun r => (pendingUserOf resolve r).toList) := by
  induction replies with
  | nil => intro sess; simp [processReplies]
  | cons r rest ih =>
    intro sess
    by_cases hr : r.message = ""
    · simp [processReplies, hr, ih, List.filter_cons, hr]
    · have hb : (r.message == "") = false := by simpa using hr
      simp only [processReplies, hr, if_false, List.filter_cons, hb]
      rcases hstep : resolveStep resolve r sess with ⟨userInfo, sess1⟩
      simp only [ih, saveReactions_pendingUsers]
      have h1 : sess1.pendingUsers = sess.pendingUsers ++ (pendingUserOf resolve r).toList := by
        have := resolveStep_pendingUsers resolve r sess
        rw [hstep] at this
        exact this
      simp [h1]

/-- Every branch of the content-plan `try:` returns a value (its
`except Exception` swallows everything) and makes exactly the one
plan request after any calls of the gather phase. -/
theorem planTryPhase_res_ok (env : Env) (db : DB) (channelId days : Int)
    (analysisData : Json) (calls0 : List LlmCall) :
    (∃ j, (planTryPhase env db channelId days analysisData calls0).res = .ok j) ∧
    (planTryPhase env db channelId days analysisData calls0).calls =
      calls0 ++ [planCall env days analysisData] := by
  unfold planTryPhase
  cases hllm : env.llm (planCall env days analysisData) with
  | error e => exact ⟨⟨_, rfl⟩, rfl⟩
  | ok result =>
    dsimp only
    cases hload : env.loads result with
    | none => exact ⟨⟨_, rfl⟩, rfl⟩
    | some planData =>
      dsimp only
      cases hrows : planItems planData >>= planRowsOf env channelId with
      | error e => exact ⟨⟨_, rfl⟩, rfl⟩
      | ok rows =>
        dsimp only
        cases hcommit : env.commitError with
        | some e => exact ⟨⟨_, rfl⟩, rfl⟩
        | none => exact ⟨⟨_, rfl⟩, rfl⟩

/-- Every branch of the survey `try:` returns a value and makes exactly
the one survey request after any calls of the gather phase. -/
theorem surveyTryPhase_res_ok (env : Env) (db : DB) (channelId : Int)
    (analysisData : Json) (calls0 : List LlmCall) :
    (∃ j, (surveyTryPhase env db channelId analysisData calls0).res = .ok j) ∧
    (surveyTryPhase env db channelId analysisData calls0).calls =
      calls0 ++ [surveyCall env analysisData] := by
  unfold surveyTryPhase
  cases hllm : env.llm (surveyCall env analysisData) with
  | error e => exact ⟨⟨_, rfl⟩, rfl⟩
  | ok result =>
    dsimp only
    cases hload : env.loads result with
    | none => exact ⟨⟨_, rfl⟩, rfl⟩
    | some surveyData =>
      dsimp only
      cases hfields : (do
          let title ← pyGetItem surveyData "title"
          let description ← pyGetItem surveyData "description"
          let questions ← pyGetItem surveyData "questions"
          .ok (title, description, questions) :
          Except PyExn (Json × Json × Json)) with
      | error e => exact ⟨⟨_, rfl⟩, rfl⟩
      | ok triple =>
        dsimp only
        rcases triple with ⟨t, d, q⟩
        cases hcommit : env.commitError with
        | some e => exact ⟨⟨_, rfl⟩, rfl⟩
        | none => exact ⟨⟨_, rfl⟩, rfl⟩

theorem except_ok_bind {ε α β : Type} (a : α) (f : α → Except ε β) :
    ((Except.ok a : Except ε α) >>= f) = f a := rfl

theorem except_error_bind {ε α β : Type} (e : ε) (f : α → Except ε β) :
    ((Except.error e : Except ε α) >>= f) = .error e := rfl

/-- What the claim wording calls the day number of a day key:
`int(day_key.split("_")[1])` when that computation succeeds. -/
def dayNumber (k : String) : Option Int :=
  match pyIndex (pySplit k '_') 1 with
  | .error _ => none
  | .ok s =>
    match pyInt s with
    | .error _ => none
    | .ok n => some n

/-- Characterization of the content-plan loop: when it succeeds it builds
one pending row per day key, in dict order, each carrying the planned date
`today + (day_number - 1)` and status `draft`. -/
theorem planRowsOf_spec (env : Env) (channelId : Int) :
    ∀ (entries : List (String × Json)) (rows : List PendingContentPlan),
      planRowsOf env channelId entries = .ok rows →
      rows.length = entries.length ∧
      ∀ pr ∈ entries.zip rows,
        ∃ n : Int, dayNumber pr.1.1 = some n ∧
          pr.2.planned_date = env.today + (n - 1) ∧
          pr.2.status = "draft" ∧
          pr.2.channel_id = channelId ∧
          pr.2.content = env.dumps pr.1.2 := by
  intro entries
  induction entries with
  | nil =>
    intro rows h
    unfold planRowsOf at h
    cases h
    simp
  | cons e rest ih =>
    intro rows h
    rcases e with ⟨dayKey, dayPlan⟩
    unfold planRowsOf at h
    cases hidx : pyIndex (pySplit dayKey '_') 1 with
    | error err => rw [hidx, except_error_bind] at h; cases h
    | ok s =>
      rw [hidx, except_ok_bind] at h
      cases hint : pyInt s with
      | error err => rw [hint, except_error_bind] at h; cases h
      | ok dayNum =>
        rw [hint, except_ok_bind] at h
        cases htitle : pyGetItem dayPlan "title" with
        | error err => rw [htitle, except_error_bind] at h; cases h
        | ok title =>
          rw [htitle, except_ok_bind] at h
          cases hdescr : pyGetItem dayPlan "description" with
          | error err => rw [hdescr, except_error_bind] at h; cases h
          | ok description =>
            rw [hdescr, except_ok_bind] at h
            cases hrest : planRowsOf env channelId rest with
            | error err => rw [hrest, except_error_bind] at h; cases h
            | ok restRows =>
              rw [hrest, except_ok_bind] at h
              cases h
              rcases ih restRows hrest with ⟨hlen, hall⟩
              constructor
              · simp [hlen]
              · intro pr hpr
                rcases List.mem_cons.mp (by simpa using hpr) with hhead | htail
                · subst hhead
                  refine ⟨dayNum, ?_, rfl, rfl, rfl, rfl⟩
                  simp [dayNumber, hidx, hint]
                · exact hall pr htail

theorem recentPosts_isEmpty_false (db : DB) (ch : Int)
    (h : postsOfChannel db ch ≠ []) : (recentPosts db ch).isEmpty = false := by
  rw [List.isEmpty_eq_false_iff_exists_mem]
  rcases List.exists_mem_of_ne_nil _ ((recentPosts_eq_nil_iff db ch).ne.mpr h) with ⟨p, hp⟩
  exact ⟨p, hp⟩

/-- The zero-posts fast path of `analyze_channel_content`: the structured
error dict is returned, the LLM is not called, nothing is persisted. -/
theorem analyze_channel_content_empty (env : Env) (db : DB) (ch : Int)
    (hdb : env.dbError = none) (hempty : postsOfChannel db ch = []) :
    analyze_channel_content env db ch =
      ⟨.ok (.obj [("error", .str "No posts found for analysis")]), db, []⟩ := by
  unfold analyze_channel_content
  rw [hdb]
  have : (recentPosts db ch).isEmpty = true := by
    rw [List.isEmpty_iff, recentPosts_eq_nil_iff]
    exact hempty
  rw [if_pos this]

/-- The malformed-output path of `analyze_channel_content`: the raw text
is wrapped under `analysis`, persisted as a `channel_content` analysis
row, and returned. -/
theorem analyze_channel_content_wraps (env : Env) (db : DB) (ch : Int) (resp : String)
    (hdb : env.dbError = none) (hposts : postsOfChannel db ch ≠ [])
    (hllm : env.llm (analyzeCall env db ch) = .ok resp)
    (hparse : env.loads resp = none) (hcommit : env.commitError = none) :
    analyze_channel_content env db ch =
      ⟨.ok (.obj [("analysis", .str resp)]),
       { db with analyses := db.analyses ++
           [{ id := (db.analyses.length : Int) + 1, channel_id := some ch, post_id := none,
              analysis_type := "channel_content",
              content := env.dumps (.obj [("analysis", .str resp)]) }] },
       [analyzeCall env db ch]⟩ := by
  unfold analyze_channel_content
  rw [hdb, if_neg (by simp [recentPosts_isEmpty_false db ch hposts]), hllm]
  dsimp only
  rw [hparse, hcommit]

/-- The reuse path of `generate_content_plan`'s gather phase: a stored
channel-content analysis whose payload parses is fed to the `try:` phase
with no inline LLM calls. -/
theorem generate_content_plan_reuse (env : Env) (db : DB) (ch days : Int)
    (row : AnalysisRow) (analysisData : Json)
    (hdb : env.dbError = none)
    (hrow : latestChannelAnalysis db ch = some row)
    (hload : env.loads row.content = some analysisData) :
    generate_content_plan env db ch days =
      planTryPhase env db ch days analysisData [] := by
  unfold generate_content_plan
  rw [hdb]
  dsimp only
  rw [hrow]
  dsimp only
  rw [hload]

/-- The chaining path of `generate_content_plan` when the channel has no
analysis and no posts: the inline `analyze_channel_content` returns the
error payload, which becomes the analysis data of the `try:` phase. -/
theorem generate_content_plan_inline_empty (env : Env) (db : DB) (ch days : Int)
    (hdb : env.dbError = none)
    (hrow : latestChannelAnalysis db ch = none)
    (hempty : postsOfChannel db ch = []) :
    generate_content_plan env db ch days =
      planTryPhase env db ch days (.obj [("error", .str "No posts found for analysis")]) [] := by
  unfold generate_content_plan
  rw [hdb]
  dsimp only
  rw [hrow]
  dsimp only
  rw [analyze_channel_content_empty env db ch hdb hempty]

/-- The chaining path of `generate_survey` under the same conditions. -/
theorem generate_survey_inline_empty (env : Env) (db : DB) (ch : Int)
    (hdb : env.dbError = none)
    (hrow : latestChannelAnalysis db ch = none)
    (hempty : postsOfChannel db ch = []) :
    generate_survey env db ch =
      surveyTryPhase env db ch (.obj [("error", .str "No posts found for analysis")]) [] := by
  unfold generate_survey
  rw [hdb]
  dsimp only
  rw [hrow]
  dsimp only
  rw [analyze_channel_content_empty env db ch hdb hempty]

/-- The parse-failure path of the content-plan `try:` phase. -/
theorem planTryPhase_parse_failure (env : Env) (db : DB) (ch days : Int)
    (analysisData : Json) (calls0 : List LlmCall) (resp : String)
    (hllm : env.llm (planCall env days analysisData) = .ok resp)
    (hparse : env.loads resp = none) :
    planTryPhase env db ch days analysisData calls0 =
      ⟨.ok (.obj [("error", .str "Failed to parse response as JSON"),
                  ("raw_response", .str resp)]),
       db, calls0 ++ [planCall env days analysisData]⟩ := by
  unfold planTryPhase
  rw [hllm]
  dsimp only
  rw [hparse]

/-- The success path of the content-plan `try:` phase: the per-day rows
are appended in one commit and the parsed plan is returned. -/
theorem planTryPhase_success (env : Env) (db : DB) (ch days : Int)
    (analysisData : Json) (calls0 : List LlmCall) (resp : String)
    (entries : List (String × Json)) (rows : List PendingContentPlan)
    (hllm : env.llm (planCall env days analysisData) = .ok resp)
    (hparse : env.loads resp = some (.obj entries))
    (hrows : planRowsOf env ch entries = .ok rows)
    (hcommit : env.commitError = none) :
    planTryPhase env db ch days analysisData calls0 =
      ⟨.ok (.obj [("success", .bool true), ("content_plan", .obj entries)]),
       { db with contentPlans := db.contentPlans ++
           withIds (db.contentPlans.length : Int) storedPlanRow rows },
       calls0 ++ [planCall env days analysisData]⟩ := by
  unfold planTryPhase
  rw [hllm]
  dsimp only
  rw [hparse]
  dsimp only
  have hitems : planItems (.obj entries) >>= planRowsOf env ch = .ok rows := by
    rw [show planItems (.obj entries) = .ok entries from rfl, except_ok_bind]
    exact hrows
  rw [hitems]
  dsimp only
  rw [hcommit]

/-- With a working database session, `analyze_channel_content` never lets
an exception escape: each path returns a dictionary. -/
theorem analyze_channel_content_res_ok (env : Env) (db : DB) (channelId : Int)
    (hdb : env.dbError = none) :
    ∃ j, (analyze_channel_content env db channelId).res = .ok j := by
  unfold analyze_channel_content
  rw [hdb]
  by_cases hempty : (recentPosts db channelId).isEmpty
  · rw [if_pos hempty]
    exact ⟨_, rfl⟩
  · rw [if_neg hempty]
    cases hllm : env.llm (analyzeCall env db channelId) with
    | error e => exact ⟨_, rfl⟩
    | ok result =>
      dsimp only
      cases hcommit : env.commitError with
      | some e => exact ⟨_, rfl⟩
      | none => exact ⟨_, rfl⟩

/-- With a working database session, `analyze_post_performance` never
lets an exception escape. -/
theorem analyze_post_performance_res_ok (env : Env) (db : DB) (postId : Int)
    (hdb : env.dbError = none) :
    ∃ j, (analyze_post_performance env db postId).res = .ok j := by
  unfold analyze_post_performance
  rw [hdb]
  cases hpost : (db.posts.filter (fun p => p.id == postId)).head? with
  | none => exact ⟨_, rfl⟩
  | some post =>
    dsimp only
    cases hllm : env.llm (perfCall env db post postId) with
    | error e => exact ⟨_, rfl⟩
    | ok result =>
      dsimp only
      cases hload : env.loads result with
      | none => exact ⟨_, rfl⟩
      | some analysisData =>
        dsimp only
        cases hcommit : env.commitError with
        | some e => exact ⟨_, rfl⟩
        | none => exact ⟨_, rfl⟩

/-- With a working database session and a parseable stored analysis (when
one exists), `generate_content_plan` never lets an exception escape. -/
theorem generate_content_plan_res_ok (env : Env) (db : DB) (ch days : Int)
    (hdb : env.dbError = none)
    (hstored : ∀ row, latestChannelAnalysis db ch = some row → (env.loads row.content).isSome) :
    ∃ j, (generate_content_plan env db ch days).res = .ok j := by
  unfold generate_content_plan
  rw [hdb]
  cases hrow : latestChannelAnalysis db ch with
  | none =>
    dsimp only
    obtain ⟨j, hj⟩ := analyze_channel_content_res_ok env db ch hdb
    rw [hj]
    dsimp only
    exact (planTryPhase_res_ok env _ ch days j _).1
  | some row =>
    dsimp only
    obtain ⟨a, ha⟩ := Option.isSome_iff_exists.mp (hstored row hrow)
    rw [ha]
    dsimp only
    exact (planTryPhase_res_ok env db ch days a []).1

/-- With a working database session and a parseable stored analysis (when
one exists), `generate_survey` never lets an exception escape. -/
theorem generate_survey_res_ok (env : Env) (db : DB) (ch : Int)
    (hdb : env.dbError = none)
    (hstored : ∀ row, latestChannelAnalysis db ch = some row → (env.loads row.content).isSome) :
    ∃ j, (generate_survey env db ch).res = .ok j := by
  unfold generate_survey
  rw [hdb]
  cases hrow : latestChannelAnalysis db ch with
  | none =>
    dsimp only
    obtain ⟨j, hj⟩ := analyze_channel_content_res_ok env db ch hdb
    rw [hj]
    dsimp only
    exact (surveyTryPhase_res_ok env _ ch j _).1
  | some row =>
    dsimp only
    obtain ⟨a, ha⟩ := Option.isSome_iff_exists.mp (hstored row hrow)
    rw [ha]
    dsimp only
    exact (surveyTryPhase_res_ok env db ch a []).1

/-! ## Shared concrete fixtures for witnesses and counterexamples -/

/-- A concrete working environment: the model answers with text the JSON
library cannot parse, the database session and commits work, and "today"
is day 100. -/
def testEnv : Env :=
  { loads := fun _ => none, dumps := fun _ => "<dump>", dumpsIndent := fun _ => "<dump-indent>",
    llm := fun _ => .ok "model output", dbError := none, commitError := none, today := 100 }

/-! ## Claim C1 -/

/-- C1, counterexample: with a failed database session the posts query at
the top of `analyze_channel_content` — which runs *before* the `try:`
block — raises, and the exception propagates past the orchestrator
boundary instead of being converted to an `{"error": ...}` dictionary. -/
theorem c1_exception_escapes :
    (analyze_channel_content
      { testEnv with dbError := some (.dbFailure "database connection failed") }
      DB.empty 1).res = .error (.dbFailure "database connection failed") := rfl

/-- C1, amended: inside each of the four operations, every failure of the
model-invoke / parse / persist phase (the `try:` block: provider failure,
malformed model output, commit failure) is caught and converted into a
returned dictionary — under those conditions no exception escapes.  The
exemption the counterexample forces: the gather phase before the `try:`
(the initial queries; for plan and survey also the `json.loads` of a
stored analysis) can still propagate, so the boundary holds whenever the
session's reads work and any stored channel-content analysis parses. -/
theorem c1_boundary_after_gather (env : Env) (db : DB) (ch pid days : Int)
    (hdb : env.dbError = none)
    (hstored : ∀ row, latestChannelAnalysis db ch = some row →
      (env.loads row.content).isSome) :
    (∃ j, (analyze_channel_content env db ch).res = .ok j) ∧
    (∃ j, (generate_content_plan env db ch days).res = .ok j) ∧
    (∃ j, (analyze_post_performance env db pid).res = .ok j) ∧
    (∃ j, (generate_survey env db ch).res = .ok j) :=
  ⟨analyze_channel_content_res_ok env db ch hdb,
   generate_content_plan_res_ok env db ch days hdb hstored,
   analyze_post_performance_res_ok env db pid hdb,
   generate_survey_res_ok env db ch hdb hstored⟩

/-- C1, witness for the amended theorem at a concrete input. -/
theorem c1_boundary_after_gather_witness :
    testEnv.dbError = none ∧
    (∀ row, latestChannelAnalysis DB.empty 1 = some row →
      (testEnv.loads row.content).isSome) ∧
    ((∃ j, (analyze_channel_content testEnv DB.empty 1).res = .ok j) ∧
     (∃ j, (generate_content_plan testEnv DB.empty 1 3).res = .ok j) ∧
     (∃ j, (analyze_post_performance testEnv DB.empty 2).res = .ok j) ∧
     (∃ j, (generate_survey testEnv DB.empty 1).res = .ok j)) :=
  by
  refine ⟨rfl, ?_, ?_⟩
  · intro row h
    simp [latestChannelAnalysis, DB.empty] at h
  · exact c1_boundary_after_gather testEnv DB.empty 1 2 3 rfl
      (fun row h => by simp [latestChannelAnalysis, DB.empty] at h)

/-! ## Claim C4 -/

/-- C4, confirmed: on a channel with zero stored posts,
`analyze_channel_content` returns the dictionary
`{"error": "No posts found for analysis"}` as a normal value, makes no
LLM call, and leaves the database untouched (no Analysis row). -/
theorem c4_no_posts_error (env : Env) (db : DB) (ch : Int)
    (hdb : env.dbError = none) (hempty : postsOfChannel db ch = []) :
    analyze_channel_content env db ch =
      ⟨.ok (.obj [("error", .str "No posts found for analysis")]), db, []⟩ :=
  analyze_channel_content_empty env db ch hdb hempty

/-- C4, witness at a concrete input. -/
theorem c4_no_posts_error_witness :
    testEnv.dbError = none ∧ postsOfChannel DB.empty 1 = [] ∧
    analyze_channel_content testEnv DB.empty 1 =
      ⟨.ok (.obj [("error", .str "No posts found for analysis")]), DB.empty, []⟩ :=
  ⟨rfl, rfl, c4_no_posts_error testEnv DB.empty 1 rfl rfl⟩

/-! ## Claim C7 -/

/-- C7, confirmed: when the model response of `analyze_channel_content`
is not parseable as JSON the operation does not fail: it wraps the raw
text as `{"analysis": raw}`, persists exactly one Analysis row of type
`channel_content` holding that degraded payload, and returns the
payload. -/
theorem c7_analysis_degrades (env : Env) (db : DB) (ch : Int) (resp : String)
    (hdb : env.dbError = none) (hposts : postsOfChannel db ch ≠ [])
    (hllm : env.llm (analyzeCall env db ch) = .ok resp)
    (hparse : env.loads resp = none) (hcommit : env.commitError = none) :
    (analyze_channel_content env db ch).res = .ok (.obj [("analysis", .str resp)]) ∧
    (analyze_channel_content env db ch).db.analyses = db.analyses ++
      [{ id := (db.analyses.length : Int) + 1, channel_id := some ch, post_id := none,
         analysis_type := "channel_content",
         content := env.dumps (.obj [("analysis", .str resp)]) }] := by
  rw [analyze_channel_content_wraps env db ch resp hdb hposts hllm hparse hcommit]
  exact ⟨rfl, rfl⟩

/-- One stored post for the C7 witness database. -/
def c7db : DB := { DB.empty with posts := [⟨1, 11, 1, "hi", 5, 0, 0⟩] }

/-- C7, witness at a concrete input. -/
theorem c7_analysis_degrades_witness :
    testEnv.dbError = none ∧ postsOfChannel c7db 1 ≠ [] ∧
    testEnv.llm (analyzeCall testEnv c7db 1) = .ok "model output" ∧
    testEnv.loads "model output" = none ∧ testEnv.commitError = none ∧
    ((analyze_channel_content testEnv c7db 1).res =
      .ok (.obj [("analysis", .str "model output")]) ∧
     (analyze_channel_content testEnv c7db 1).db.analyses =
      [{ id := 1, channel_id := some 1, post_id := none,
         analysis_type := "channel_content", content := "<dump>" }]) :=
  ⟨rfl, by decide, rfl, rfl, rfl,
   c7_analysis_degrades testEnv c7db 1 "model output" rfl (by decide) rfl rfl rfl⟩

/-! ## Claim C10 -/

/-- C10, confirmed: when no prior channel-content analysis exists and the
inline `analyze_channel_content` returns the error payload
`{"error": "No posts found for analysis"}`, both `generate_content_plan`
and `generate_survey` do not short-circuit: each embeds the serialized
error payload into its prompt and still makes its one model call. -/
theorem c10_chaining_error_payload (env : Env) (db : DB) (ch days : Int)
    (hdb : env.dbError = none)
    (hnoanalysis : latestChannelAnalysis db ch = none)
    (hempty : postsOfChannel db ch = []) :
    (generate_content_plan env db ch days).calls =
      [planCall env days (.obj [("error", .str "No posts found for analysis")])] ∧
    (generate_survey env db ch).calls =
      [surveyCall env (.obj [("error", .str "No posts found for analysis")])] ∧
    (planCall env days (.obj [("error", .str "No posts found for analysis")])).user =
      planPromptPre ++
        env.dumpsIndent (.obj [("error", .str "No posts found for analysis")]) ++
        planPromptPost days ∧
    (surveyCall env (.obj [("error", .str "No posts found for analysis")])).user =
      surveyPromptPre ++
        env.dumpsIndent (.obj [("error", .str "No posts found for analysis")]) ++
        surveyPromptPost := by
  rw [generate_content_plan_inline_empty env db ch days hdb hnoanalysis hempty,
      generate_survey_inline_empty env db ch hdb hnoanalysis hempty]
  refine ⟨?_, ?_, rfl, rfl⟩
  · simpa using (planTryPhase_res_ok env db ch days _ []).2
  · simpa using (surveyTryPhase_res_ok env db ch _ []).2

/-- C10, witness at a concrete input. -/
theorem c10_chaining_error_payload_witness :
    testEnv.dbError = none ∧
    latestChannelAnalysis DB.empty 1 = none ∧
    postsOfChannel DB.empty 1 = [] ∧
    ((generate_content_plan testEnv DB.empty 1 7).calls =
      [planCall testEnv 7 (.obj [("error", .str "No posts found for analysis")])] ∧
     (generate_survey testEnv DB.empty 1).calls =
      [surveyCall testEnv (.obj [("error", .str "No posts found for analysis")])] ∧
     (planCall testEnv 7 (.obj [("error", .str "No posts found for analysis")])).user =
      planPromptPre ++ "<dump-indent>" ++ planPromptPost 7 ∧
     (surveyCall testEnv (.obj [("error", .str "No posts found for analysis")])).user =
      surveyPromptPre ++ "<dump-indent>" ++ surveyPromptPost) :=
  ⟨rfl, rfl, rfl, c10_chaining_error_payload testEnv DB.empty 1 7 rfl rfl rfl⟩

/-! ## Claim C5 -/

/-- C5, confirmed: whenever the model response to `generate_content_plan`
is not parseable as JSON, the operation returns a dictionary carrying both
an `error` key and a `raw_response` key with the raw model text, and the
database is left unchanged — in particular zero ContentPlan rows are
persisted. -/
theorem c5_plan_parse_failure (env : Env) (db : DB) (ch days : Int)
    (row : AnalysisRow) (analysisData : Json) (resp : String)
    (hdb : env.dbError = none)
    (hrow : latestChannelAnalysis db ch = some row)
    (hload : env.loads row.content = some analysisData)
    (hllm : env.llm (planCall env days analysisData) = .ok resp)
    (hparse : env.loads resp = none) :
    (generate_content_plan env db ch days).res =
      .ok (.obj [("error", .str "Failed to parse response as JSON"),
                 ("raw_response", .str resp)]) ∧
    (generate_content_plan env db ch days).db = db := by
  rw [generate_content_plan_reuse env db ch days row analysisData hdb hrow hload,
      planTryPhase_parse_failure env db ch days analysisData [] resp hllm hparse]
  exact ⟨rfl, rfl⟩

/-- The stored channel-content analysis row used by the C5 and C6
witnesses. -/
def c5row : AnalysisRow :=
  { id := 1, channel_id := some 1, post_id := none,
    analysis_type := "channel_content", content := "stored analysis" }

/-- A database holding one prior channel-content analysis. -/
def c5db : DB := { DB.empty with analyses := [c5row] }

/-- An environment where the stored analysis parses but the model response
does not. -/
def c5Env : Env :=
  { testEnv with loads := fun s =>
      if s == "stored analysis" then some (.obj [("main_topics", .arr [])]) else none }

/-- C5, witness at a concrete input. -/
theorem c5_plan_parse_failure_witness :
    c5Env.dbError = none ∧
    latestChannelAnalysis c5db 1 = some c5row ∧
    c5Env.loads c5row.content = some (.obj [("main_topics", .arr [])]) ∧
    c5Env.llm (planCall c5Env 3 (.obj [("main_topics", .arr [])])) = .ok "model output" ∧
    c5Env.loads "model output" = none ∧
    ((generate_content_plan c5Env c5db 1 3).res =
      .ok (.obj [("error", .str "Failed to parse response as JSON"),
                 ("raw_response", .str "model output")]) ∧
     (generate_content_plan c5Env c5db 1 3).db = c5db) :=
  ⟨rfl, rfl, rfl, rfl, rfl,
   c5_plan_parse_failure c5Env c5db 1 3 c5row (.obj [("main_topics", .arr [])])
     "model output" rfl rfl rfl rfl rfl⟩

/-! ## Claim C6 -/

/-- C6, confirmed: on a successfully parsed model response,
`generate_content_plan` persists exactly one ContentPlan row per day key
of the parsed plan — in dict order, committed together in the one
`db.commit()` — and row `i` carries planned date
`today + (day_number_i - 1)` and status `draft`, where `day_number_i` is
`int(day_key.split("_")[1])`; the returned value is
`{"success": true, "content_plan": plan}`. -/
theorem c6_plan_success (env : Env) (db : DB) (ch days : Int)
    (row : AnalysisRow) (analysisData : Json) (resp : String)
    (entries : List (String × Json)) (rows : List PendingContentPlan)
    (hdb : env.dbError = none) (hcommit : env.commitError = none)
    (hrow : latestChannelAnalysis db ch = some row)
    (hload : env.loads row.content = some analysisData)
    (hllm : env.llm (planCall env days analysisData) = .ok resp)
    (hparse : env.loads resp = some (.obj entries))
    (hrows : planRowsOf env ch entries = .ok rows) :
    (generate_content_plan env db ch days).res =
      .ok (.obj [("success", .bool true), ("content_plan", .obj entries)]) ∧
    (generate_content_plan env db ch days).db.contentPlans =
      db.contentPlans ++ withIds (db.contentPlans.length : Int) storedPlanRow rows ∧
    rows.length = entries.length ∧
    (∀ pr ∈ entries.zip rows,
      ∃ n : Int, dayNumber pr.1.1 = some n ∧
        pr.2.planned_date = env.today + (n - 1) ∧
        pr.2.status = "draft" ∧
        pr.2.channel_id = ch ∧
        pr.2.content = env.dumps pr.1.2) := by
  rw [generate_content_plan_reuse env db ch days row analysisData hdb hrow hload,
      planTryPhase_success env db ch days analysisData [] resp entries rows
        hllm hparse hrows hcommit]
  obtain ⟨hlen, hall⟩ := planRowsOf_spec env ch entries rows hrows
  exact ⟨rfl, rfl, hlen, hall⟩

/-- The three-day plan the C6 witness model returns. -/
def c6entries : List (String × Json) :=
  [("day_1", .obj [("title", .str "t1"), ("description", .str "d1")]),
   ("day_2", .obj [("title", .str "t2"), ("description", .str "d2")]),
   ("day_3", .obj [("title", .str "t3"), ("description", .str "d3")])]

/-- An environment where the stored analysis parses and the model returns
the three-day plan. -/
def c6Env : Env :=
  { testEnv with loads := fun s =>
      if s == "stored analysis" then some (.obj [("main_topics", .arr [])])
      else if s == "model output" then some (.obj c6entries)
      else none }

/-- The pending rows the C6 witness run builds: planned dates
`today`, `today + 1`, `today + 2` (today is day 100), all `draft`. -/
def c6rows : List PendingContentPlan :=
  [{ channel_id := 1, title := .str "t1", description := .str "d1",
     planned_date := 100, content := "<dump>", status := "draft" },
   { channel_id := 1, title := .str "t2", description := .str "d2",
     planned_date := 101, content := "<dump>", status := "draft" },
   { channel_id := 1, title := .str "t3", description := .str "d3",
     planned_date := 102, content := "<dump>", status := "draft" }]

/-- C6, witness: with `days = 3` and a prior valid channel analysis the
operation persists exactly 3 rows with planned dates today, today+1,
today+2, each status `draft`. -/
theorem c6_plan_success_witness :
    c6Env.dbError = none ∧ c6Env.commitError = none ∧
    latestChannelAnalysis c5db 1 = some c5row ∧
    c6Env.loads c5row.content = some (.obj [("main_topics", .arr [])]) ∧
    c6Env.llm (planCall c6Env 3 (.obj [("main_topics", .arr [])])) = .ok "model output" ∧
    c6Env.loads "model output" = some (.obj c6entries) ∧
    planRowsOf c6Env 1 c6entries = .ok c6rows ∧
    ((generate_content_plan c6Env c5db 1 3).res =
      .ok (.obj [("success", .bool true), ("content_plan", .obj c6entries)]) ∧
     (generate_content_plan c6Env c5db 1 3).db.contentPlans =
      [] ++ withIds 0 storedPlanRow c6rows ∧
     c6rows.length = c6entries.length ∧
     (∀ pr ∈ c6entries.zip c6rows,
       ∃ n : Int, dayNumber pr.1.1 = some n ∧
         pr.2.planned_date = c6Env.today + (n - 1) ∧
         pr.2.status = "draft" ∧
         pr.2.channel_id = 1 ∧
         pr.2.content = c6Env.dumps pr.1.2)) :=
  ⟨rfl, rfl, rfl, rfl, rfl, rfl, rfl,
   c6_plan_success c6Env c5db 1 3 c5row (.obj [("main_topics", .arr [])])
     "model output" c6entries c6rows rfl rfl rfl rfl rfl rfl rfl⟩

/-! ## Claim C2 -/

/-- The one-message history used by the C2 and C3 runs. -/
def c2msg : TgMessage :=
  { id := 1, date := 5, message := "hello", views := 3, forwards := 0,
    reactions := none, from_id := none }

/-- The database after collecting `[c2msg]` once into channel 10. -/
def c2db1 : DB :=
  match (getPosts 10 [c2msg] DB.empty).2 with
  | .ok db => db
  | .error _ => DB.empty

/-- The database after collecting the same history a second time. -/
def c2db2 : DB :=
  match (getPosts 10 [c2msg] c2db1).2 with
  | .ok db => db
  | .error _ => DB.empty

/-- C2, counterexample: running `get_posts` twice over the same one-message
history commits both times and leaves two stored Post rows with the same
(external id, channel id) — the collector inserts unconditionally and
`models.py` declares no uniqueness over `(tg_id, channel_id)`. -/
theorem c2_counterexample :
    (getPosts 10 [c2msg] DB.empty).2 = .ok c2db1 ∧
    (getPosts 10 [c2msg] c2db1).2 = .ok c2db2 ∧
    c2db2.posts.countP (fun p => p.tg_id == 1 && p.channel_id == 10) = 2 :=
  ⟨rfl, rfl, by decide⟩

/-- The reply and resolver of the C2 user-merge runs: one non-empty reply
whose author resolves to Telegram user 7. -/
def c2reply : TgMessage :=
  { id := 21, date := 6, message := "nice", views := 0, forwards := 0,
    reactions := none, from_id := some 7 }

/-- Author resolution for the C2 user-merge runs. -/
def c2resolve : Int → ResolveResult :=
  fun _ => .user { id := 7, username := some "bob", first_name := none, last_name := none }

/-- The database after collecting the reply once. -/
def c2udb1 : DB :=
  match (getComments (some 1) true [c2reply] c2resolve DB.empty).2 with
  | .ok db => db
  | .error _ => DB.empty

/-- C2, amended: collection is not idempotent.  (a) Each `get_posts` run
inserts a fresh Post row per non-empty message (`db.add`, no merge), so
re-collecting the same history stores a second row under the same
(external id, channel id).  (b) User rows cannot be duplicated — the
`users.tg_id` UNIQUE constraint stands — but not by merging:
`db.merge` on a transient `UserModel` (primary key unset) is a pending
INSERT, so re-collecting the same replies makes the second commit raise
an IntegrityError instead of updating in place, and the second run's
rows are not persisted at all. -/
theorem c2_recollection_duplicates :
    (∀ (entityId : Int) (history : List TgMessage) (db db1 db2 : DB) (m : TgMessage),
      m ∈ history → m.message ≠ "" →
      (getPosts entityId history db).2 = .ok db1 →
      (getPosts entityId history db1).2 = .ok db2 →
      2 ≤ db2.posts.countP (fun p => p.tg_id == m.id && p.channel_id == entityId)) ∧
    c2udb1.users.countP (fun u => u.tg_id == 7) = 1 ∧
    (getComments (some 1) true [c2reply] c2resolve c2udb1).2 =
      .error (.integrityError "UNIQUE constraint failed: users.tg_id") := by
  refine ⟨?_, by decide, rfl⟩
  intro entityId history db db1 db2 m hm hne h1 h2
  obtain ⟨db1', hok1, hposts1⟩ := getPosts_posts entityId history db
  obtain ⟨db2', hok2, hposts2⟩ := getPosts_posts entityId history db1
  rw [h1] at hok1
  rw [h2] at hok2
  cases hok1
  cases hok2
  have hq : ∀ (base : Int),
      (withIds base
        (fun i p => PostRow.mk i p.tg_id p.channel_id p.content p.posted_at p.views p.forwards)
        ((history.filter (fun x => !(x.message == ""))).map (pendingPostOf entityId))).countP
          (fun p => p.tg_id == m.id && p.channel_id == entityId) =
      ((history.filter (fun x => !(x.message == ""))).map (pendingPostOf entityId)).countP
          (fun p => p.tg_id == m.id && p.channel_id == entityId) := by
    intro base
    exact withIds_countP
      (fun i (p : PendingPost) =>
        PostRow.mk i p.tg_id p.channel_id p.content p.posted_at p.views p.forwards)
      (fun (p : PostRow) => p.tg_id == m.id && p.channel_id == entityId)
      (fun (p : PendingPost) => p.tg_id == m.id && p.channel_id == entityId)
      (fun i x => rfl) base _
  have hmem : pendingPostOf entityId m ∈
      (history.filter (fun x => !(x.message == ""))).map (pendingPostOf entityId) := by
    exact List.mem_map_of_mem _ (List.mem_filter.mpr ⟨hm, by simpa using hne⟩)
  have hpos : 0 <
      ((history.filter (fun x => !(x.message == ""))).map (pendingPostOf entityId)).countP
        (fun p => p.tg_id == m.id && p.channel_id == entityId) := by
    rw [List.countP_pos_iff]
    exact ⟨pendingPostOf entityId m, hmem, by simp [pendingPostOf]⟩
  rw [hposts2, hposts1]
  rw [List.countP_append, List.countP_append, hq, hq]
  omega

/-- C2, witness for the amended theorem's post half at the concrete
double run. -/
theorem c2_recollection_duplicates_witness :
    c2msg ∈ [c2msg] ∧ c2msg.message ≠ "" ∧
    (getPosts 10 [c2msg] DB.empty).2 = .ok c2db1 ∧
    (getPosts 10 [c2msg] c2db1).2 = .ok c2db2 ∧
    2 ≤ c2db2.posts.countP (fun p => p.tg_id == c2msg.id && p.channel_id == 10) :=
  ⟨List.mem_singleton.mpr rfl, by decide, rfl, rfl,
   c2_recollection_duplicates.1 10 [c2msg] DB.empty c2db1 c2db2 c2msg
     (List.mem_singleton.mpr rfl) (by decide) rfl rfl⟩

/-! ## Claim C3 -/

/-- A message carrying one plain-emoji reaction with count 4. -/
def c3msg : TgMessage :=
  { id := 1, date := 5, message := "hello", views := 3, forwards := 0,
    reactions := some [⟨.emoticon "thumbs", 4⟩], from_id := none }

/-- The database after `get_posts` collects `[c3msg]` into channel 10. -/
def c3db : DB :=
  match (getPosts 10 [c3msg] DB.empty).2 with
  | .ok db => db
  | .error _ => DB.empty

/-- C3, the code evaluated at the failing input: collecting one message
with one reaction stores the post, but the stored Reaction row has
`post_id = NULL` *and* `comment_id = NULL` — `_save_reactions` reads
`entity.id` from the just-`db.add`ed, never-flushed Post object
(`autoflush=False`), where the primary key is still `None`, so neither
foreign key is set.  The same happens to comment reactions in
`get_comments`. -/
theorem c3_reaction_rows_both_null :
    (getPosts 10 [c3msg] DB.empty).2 = .ok c3db ∧
    c3db.posts = [{ id := 1, tg_id := 1, channel_id := 10, content := "hello",
                    posted_at := 5, views := 3, forwards := 0 }] ∧
    c3db.reactions = [{ id := 1, post_id := none, comment_id := none,
                        reaction_type := "thumbs", count := 4 }] :=
  ⟨rfl, rfl, rfl⟩

/-! ## Claim C8 -/

/-- C8, confirmed: in every comment collection run (truthy post id, post
resolved, commit succeeds), a reply whose author resolution raises still
yields a stored Comment with `user_id = NULL`; the run still returns one
dict per non-empty reply (the failure aborts nothing); and every reply
whose author resolves to a user leaves a stored User row with that
Telegram id. -/
theorem c8_author_failure_nonaborting
    (pid : Int) (replies : List TgMessage) (resolve : Int → ResolveResult) (db db' : DB)
    (r : TgMessage) (fid : Int) (msg : String)
    (hpid : (pid == 0) = false)
    (hr : r ∈ replies) (hne : r.message ≠ "")
    (hfrom : r.from_id = some fid) (hfail : resolve fid = .raises msg)
    (hok : (getComments (some pid) true replies resolve db).2 = .ok db') :
    (∃ c ∈ db'.comments, c.tg_id = r.id ∧ c.user_id = none ∧ c.post_id = pid) ∧
    (getComments (some pid) true replies resolve db).1.length =
      (replies.filter (fun x => !(x.message == ""))).length ∧
    (∀ r' ∈ replies, r'.message ≠ "" → ∀ f' u, r'.from_id = some f' →
      resolve f' = .user u → ∃ urow ∈ db'.users, urow.tg_id = u.id) := by
  rcases hproc : processReplies pid resolve replies Sess.empty with ⟨cds, sess⟩
  have hgc : getComments (some pid) true replies resolve db = (cds, sess.commit db) := by
    simp [getComments, hpid, hproc]
  rw [hgc] at hok
  have hsessC : sess.pendingComments =
      (replies.filter (fun x => !(x.message == ""))).map (pendingCommentOf pid resolve) := by
    have := processReplies_pendingComments pid resolve replies Sess.empty
    rw [hproc] at this
    simpa [Sess.empty] using this
  have hsessU : sess.pendingUsers =
      (replies.filter (fun x => !(x.message == ""))).flatMap
        (fun x => (pendingUserOf resolve x).toList) := by
    have := processReplies_pendingUsers pid resolve replies Sess.empty
    rw [hproc] at this
    simpa [Sess.empty] using this
  unfold Sess.commit at hok
  split at hok
  · cases hok
  · injection hok with hdb'
    refine ⟨?_, ?_, ?_⟩
    · have hpc : pendingCommentOf pid resolve r ∈ sess.pendingComments := by
        rw [hsessC]
        exact List.mem_map_of_mem _ (List.mem_filter.mpr ⟨hr, by simpa using hne⟩)
      obtain ⟨i, hi⟩ := withIds_mem
        (fun i c => CommentRow.mk i c.tg_id c.post_id c.user_id c.content c.commented_at)
        (db.comments.length : Int) sess.pendingComments hpc
      have huid : (pendingCommentOf pid resolve r).user_id = none := by
        simp [pendingCommentOf, resolveUser, hfrom, hfail]
      refine ⟨CommentRow.mk i (pendingCommentOf pid resolve r).tg_id
        (pendingCommentOf pid resolve r).post_id (pendingCommentOf pid resolve r).user_id
        (pendingCommentOf pid resolve r).content (pendingCommentOf pid resolve r).commented_at,
        ?_, rfl, huid, rfl⟩
      rw [← hdb']
      exact List.mem_append_right _ hi
    · rw [hgc]
      have := processReplies_length pid resolve replies Sess.empty
      rw [hproc] at this
      simpa using this
    · intro r' hr' hne' f' u hfrom' hres'
      have hpu : pendingUserOf resolve r' =
          some (PendingUser.mk u.id u.username u.first_name u.last_name) := by
        simp [pendingUserOf, resolveUser, hfrom', hres']
      have hmem : PendingUser.mk u.id u.username u.first_name u.last_name ∈
          sess.pendingUsers := by
        rw [hsessU]
        rw [List.mem_flatMap]
        refine ⟨r', List.mem_filter.mpr ⟨hr', by simpa using hne'⟩, ?_⟩
        rw [hpu]
        simp
      obtain ⟨i, hi⟩ := withIds_mem
        (fun i v => UserRow.mk i v.tg_id v.username v.first_name v.last_name)
        (db.users.length : Int) sess.pendingUsers hmem
      refine ⟨UserRow.mk i u.id u.username u.first_name u.last_name, ?_, rfl⟩
      rw [← hdb']
      exact List.mem_append_right _ hi

/-- First reply of the C8 witness run: its author lookup raises. -/
def c8r1 : TgMessage :=
  { id := 21, date := 6, message := "nice", views := 0, forwards := 0,
    reactions := none, from_id := some 7 }

/-- Second reply of the C8 witness run: its author resolves to user 8. -/
def c8r2 : TgMessage :=
  { id := 22, date := 7, message := "thanks", views := 0, forwards := 0,
    reactions := none, from_id := some 8 }

/-- Author resolution of the C8 witness run. -/
def c8resolve : Int → ResolveResult :=
  fun f => if f == 7 then .raises "boom"
    else .user { id := 8, username := some "bob", first_name := none, last_name := none }

/-- The database after the C8 witness run. -/
def c8db : DB :=
  match (getComments (some 1) true [c8r1, c8r2] c8resolve DB.empty).2 with
  | .ok db => db
  | .error _ => DB.empty

/-- C8, witness at a concrete input: the first reply's failed author
lookup leaves a Comment with `user_id = NULL`, the second reply is still
collected, and its user is stored. -/
theorem c8_author_failure_nonaborting_witness :
    ((1 : Int) == 0) = false ∧
    c8r1 ∈ [c8r1, c8r2] ∧ c8r1.message ≠ "" ∧
    c8r1.from_id = some 7 ∧ c8resolve 7 = .raises "boom" ∧
    (getComments (some 1) true [c8r1, c8r2] c8resolve DB.empty).2 = .ok c8db ∧
    ((∃ c ∈ c8db.comments, c.tg_id = c8r1.id ∧ c.user_id = none ∧ c.post_id = 1) ∧
     (getComments (some 1) true [c8r1, c8r2] c8resolve DB.empty).1.length =
       ([c8r1, c8r2].filter (fun x => !(x.message == ""))).length ∧
     (∀ r' ∈ [c8r1, c8r2], r'.message ≠ "" → ∀ f' u, r'.from_id = some f' →
       c8resolve f' = .user u → ∃ urow ∈ c8db.users, urow.tg_id = u.id)) :=
  ⟨rfl, List.mem_cons_self _ _, by decide, rfl, rfl, rfl,
   c8_author_failure_nonaborting 1 [c8r1, c8r2] c8resolve DB.empty c8db c8r1 7 "boom"
     rfl (List.mem_cons_self _ _) (by decide) rfl rfl rfl⟩

/-! ## Claim C9 -/

/-- The session context after entering a channel in the channel-analysis
conversation. -/
def c9afterInput : ConvState × UserData :=
  process_channel_analysis "@testchan" UserData.empty

/-- The outcome of confirming the action (`"Да"`). -/
def c9afterConfirm : ConvState × UserData × Option String :=
  confirm_action (fun _ => .null) c9afterInput.2

/-- C9, counterexample: a conversation that captures a channel and is
confirmed reaches `END`, but the per-session context still holds the
captured channel username and the pending task type — nothing clears
`user_data`, so a subsequently started conversation does not begin with
empty context. -/
theorem c9_counterexample :
    c9afterInput.1 = ConvState.waitingForConfirmation ∧
    c9afterConfirm.1 = ConvState.conversationEnd ∧
    c9afterConfirm.2.1 =
      { channel_username := some "testchan", post_id := none,
        pending_action := some "analyze_channel" } ∧
    c9afterConfirm.2.1 ≠ UserData.empty :=
  ⟨rfl, rfl, rfl, by decide⟩

/-- C9, amended: on reaching `END` — after a confirmed action, after a
negative confirmation reply, or via the global cancel — the handlers
return the `END` sentinel but leave the per-session context exactly as
it was; a subsequent conversation in the same session starts with the
previous channel username, post id and pending task type still present
(each handler only overwrites them when its own path runs). -/
theorem c9_context_not_cleared :
    (∀ (perform : String → Json) (ud : UserData),
      (confirm_action perform ud).1 = ConvState.conversationEnd ∧
      (confirm_action perform ud).2.1 = ud) ∧
    (∀ ud : UserData, cancel_action ud = (ConvState.conversationEnd, ud)) ∧
    (∀ ud : UserData, cancel ud = (ConvState.conversationEnd, ud)) := by
  refine ⟨fun perform ud => ?_, fun ud => rfl, fun ud => rfl⟩
  unfold confirm_action
  cases h : ud.pending_action <;> exact ⟨rfl, rfl⟩
